import Mathlib

/-!
Shallow embedding of the command supervision core of the KiskisAgent
repository (src/agent/KiskisAgent/src/KAThread.cpp), together with proofs
about the claims of its specification.

Modelling conventions:
* C++ `std::string` byte buffers (the output/error buffers and all message
  payloads) are modelled as `List Char` (`Buf`); `substr(0,n)` is `take n`,
  `substr(n, size-n)` is `drop n`, `size()` is `length`.
* Correlation strings (uuid, source, mode tags, ...) stay `String`; the
  source compares modes by string equality and so does the model.
* OS effects (pipe select/read results, the seconds-of-minute clock, the
  pid discovered through pgrep, chdir and getpwnam outcomes) are inputs:
  each iteration of the multiplex loop consumes one `LoopEvent`, and the
  per-run facts are collected in `RunInputs`.
* Logging (`KALogger`) is a pure side channel and is dropped, except where
  a claim is about the fact of logging (pipe-open failure), which is
  recorded as a flag.
* `KAResponsePack` and `KAStreamReader` are not under src/.  Their use is
  modelled from the spec: response constructors build a `Response` record,
  and the positional convention of `createResponseMessage` (5th argument =
  stderr fragment, 6th = stdout fragment) follows the repository's own
  call sites, which always pass `errBuff` 5th and `outBuff` 6th.
  `KAStreamReader` is modelled from spec section 4.2 as a mode tag, a byte
  buffer, a select result and a read result; its buffer capacity is
  unspecified, so a read may deliver any number of bytes.
-/

namespace KA

/-- Byte buffers of the supervisor (`std::string` in the source). -/
abbrev Buf := List Char

/-- The four response variants of the data model (Progress and Heartbeat
share one wire shape: both are built by `createResponseMessage`). -/
inductive RespType
  | progress
  | timeoutMsg
  | exitMsg
deriving DecidableEq

/-- Modelled from the spec: the wire message built by `KAResponsePack`
(not under src/).  It carries the correlation header, the two payload
fragments and, for Exit, the exit code. -/
structure Response where
  rtype : RespType
  uuid : String
  pid : Int
  requestSequenceNumber : Nat
  responseCount : Nat
  stdErr : Buf
  stdOut : Buf
  source : String
  taskUuid : String
  exitCode : Nat
deriving DecidableEq

/-- Modelled from the spec: `KAResponsePack::createResponseMessage`.
The 5th argument is the stderr fragment and the 6th the stdout fragment,
matching every call site in KAThread.cpp (`errBuff` is always passed 5th,
`outBuff` 6th). -/
def createResponseMessage (uuid : String) (pid : Int) (seq : Nat) (count : Nat)
    (err : Buf) (out : Buf) (source : String) (taskUuid : String) : Response :=
  { rtype := .progress, uuid := uuid, pid := pid, requestSequenceNumber := seq,
    responseCount := count, stdErr := err, stdOut := out, source := source,
    taskUuid := taskUuid, exitCode := 0 }

/-- Modelled from the spec: `KAResponsePack::createTimeoutMessage`. -/
def createTimeoutMessage (uuid : String) (pid : Int) (seq : Nat) (count : Nat)
    (err : Buf) (out : Buf) (source : String) (taskUuid : String) : Response :=
  { rtype := .timeoutMsg, uuid := uuid, pid := pid, requestSequenceNumber := seq,
    responseCount := count, stdErr := err, stdOut := out, source := source,
    taskUuid := taskUuid, exitCode := 0 }

/-- Modelled from the spec: `KAResponsePack::createExitMessage`. -/
def createExitMessage (uuid : String) (pid : Int) (seq : Nat) (count : Nat)
    (source : String) (taskUuid : String) (exitcode : Nat) : Response :=
  { rtype := .exitMsg, uuid := uuid, pid := pid, requestSequenceNumber := seq,
    responseCount := count, stdErr := [], stdOut := [], source := source,
    taskUuid := taskUuid, exitCode := exitcode }

/-- The immutable command input (`KACommand`, consumed through its getters
in KAThread.cpp). -/
structure KACommand where
  uuid : String
  taskUuid : String
  requestSequenceNumber : Nat
  source : String
  program : String
  arguments : List String
  environment : List (String × String)
  workingDirectory : String
  runAs : String
  standardOutput : String
  standardError : String
  standardOutputPath : String
  standardErrPath : String
  timeout : Nat
deriving DecidableEq

/-- Modelled from the spec (section 4.2): `KAStreamReader` is not under
src/.  Only the state KAThread.cpp manipulates is kept: the mode tag, the
in-memory buffer, the stored select result and the stored read result.
The read result member is uninitialized in the source until the first
`startReading`; runs therefore receive its initial value as an input. -/
structure KAStreamReader where
  mode : String
  path : String
  buffer : Buf
  selectResult : Int
  readResult : Nat
deriving DecidableEq

/-- The per-worker supervisor state: the members of class `KAThread`
that KAThread.cpp reads or writes. -/
structure KAThread where
  CWDERR : Bool
  UIDERR : Bool
  responsecount : Nat
  ACTFLAG : Bool
  EXITSTATUS : Nat
  processpid : Int
  outBuff : Buf
  errBuff : Buf
  argument : String
  environment : String
  exec : String
  outputStream : KAStreamReader
  errorStream : KAStreamReader
deriving DecidableEq

/-- KAThread state at entry of `optionReadSend`: the constructor
(KAThread.cpp lines 21-29) plus the stream setup done by `threadFunction`
(lines 718-724).  The streams' read results are uninitialized in the
source and are supplied as inputs. -/
def initThread (command : KACommand) (initOutRead initErrRead : Nat) : KAThread :=
  { CWDERR := false, UIDERR := false, responsecount := 1, ACTFLAG := false,
    EXITSTATUS := 0, processpid := 0, outBuff := [], errBuff := [],
    argument := "", environment := "", exec := "",
    outputStream := { mode := command.standardOutput, path := command.standardOutputPath,
                      buffer := [], selectResult := 0, readResult := initOutRead },
    errorStream := { mode := command.standardError, path := command.standardErrPath,
                     buffer := [], selectResult := 0, readResult := initErrRead } }

/-- `KAThread::createExecString` (lines 80-110).  The member strings
`argument` and `environment` are appended to (never cleared); only `exec`
is rebuilt from scratch. -/
def createExecString (command : KACommand) (t : KAThread) : String × KAThread :=
  let argument := command.arguments.foldl (fun s a => s ++ a ++ " ") t.argument
  let environment := command.environment.foldl
    (fun s p => s ++ " export " ++ p.1 ++ "=" ++ p.2 ++ " && ") t.environment
  let exec :=
    if environment.isEmpty then command.program ++ " " ++ argument
    else environment ++ command.program ++ " " ++ argument
  (exec, { t with argument := argument, environment := environment, exec := exec })

/-- The three mutable locals of the timer protocol of
`KAThread::checkExecutionTimeout` (passed by pointer in the source). -/
structure TimerState where
  startsec : Nat
  overflag : Bool
  count : Nat
deriving DecidableEq

/-- `KAThread::checkExecutionTimeout` (lines 388-433).  `currentsec` is the
seconds-of-minute value fetched from the clock inside the source function,
supplied here as an argument.  Returns the updated timer state and whether
the accumulated count reached the timeout. -/
def checkExecutionTimeout (currentsec : Nat) (exectimeout : Nat) (ts : TimerState) :
    TimerState × Bool :=
  if exectimeout ≠ 0 then
    let ts1 :=
      if currentsec > ts.startsec ∧ ts.overflag = false then
        if currentsec ≠ 59 then
          { ts with count := ts.count + (currentsec - ts.startsec), startsec := currentsec }
        else
          { ts with count := ts.count + (currentsec - ts.startsec),
                    overflag := true, startsec := 0 }
      else ts
    let ts2 :=
      if currentsec = 59 then { ts1 with overflag := true, startsec := 0 }
      else { ts1 with overflag := false }
    (ts2, decide (ts2.count ≥ exectimeout))
  else (ts, false)

/-- `KAThread::checkAndSend` (lines 226-285): the mid-run emission policy.
The output side is tested on the stream's mode member, the error side on
the command's field, exactly as in the source. -/
def checkAndSend (command : KACommand) (t : KAThread) : KAThread × List Response :=
  if t.outputStream.mode == "RETURN" || t.outputStream.mode == "CAPTURE_AND_RETURN" then
    if command.standardError == "CAPTURE" || command.standardError == "NO" then
      let t1 := { t with errBuff := [] }
      let msg := createResponseMessage command.uuid t1.processpid
        command.requestSequenceNumber t1.responsecount t1.errBuff t1.outBuff
        command.source command.taskUuid
      ({ t1 with responsecount := t1.responsecount + 1 }, [msg])
    else
      let msg := createResponseMessage command.uuid t.processpid
        command.requestSequenceNumber t.responsecount t.errBuff t.outBuff
        command.source command.taskUuid
      ({ t with responsecount := t.responsecount + 1 }, [msg])
  else
    if command.standardError == "CAPTURE" || command.standardError == "NO" then
      (t, [])
    else
      let t1 := { t with outBuff := [] }
      let msg := createResponseMessage command.uuid t1.processpid
        command.requestSequenceNumber t1.responsecount t1.errBuff t1.outBuff
        command.source command.taskUuid
      ({ t1 with responsecount := t1.responsecount + 1 }, [msg])

/-- `KAThread::lastCheckAndSend` (lines 116-220): the drain policy run on
loop exit. -/
def lastCheckAndSend (command : KACommand) (t : KAThread) : KAThread × List Response :=
  let outBuffsize := t.outBuff.length
  let errBuffsize := t.errBuff.length
  if outBuffsize ≠ 0 ∨ errBuffsize ≠ 0 then
    if outBuffsize ≠ 0 ∧ errBuffsize ≠ 0 then
      if (command.standardOutput == "CAPTURE_AND_RETURN" || command.standardOutput == "RETURN")
          && (command.standardError == "CAPTURE_AND_RETURN" || command.standardError == "RETURN") then
        let msg := createResponseMessage command.uuid t.processpid
          command.requestSequenceNumber t.responsecount t.errBuff t.outBuff
          command.source command.taskUuid
        ({ t with responsecount := t.responsecount + 1, outBuff := [], errBuff := [] }, [msg])
      else if command.standardOutput == "CAPTURE_AND_RETURN" || command.standardOutput == "RETURN" then
        let t1 := { t with errBuff := [] }
        let msg := createResponseMessage command.uuid t1.processpid
          command.requestSequenceNumber t1.responsecount t1.errBuff t1.outBuff
          command.source command.taskUuid
        ({ t1 with responsecount := t1.responsecount + 1, outBuff := [] }, [msg])
      else if command.standardError == "CAPTURE_AND_RETURN" || command.standardError == "RETURN" then
        let t1 := { t with outBuff := [] }
        let msg := createResponseMessage command.uuid t1.processpid
          command.requestSequenceNumber t1.responsecount t1.errBuff t1.outBuff
          command.source command.taskUuid
        ({ t1 with responsecount := t1.responsecount + 1, errBuff := [] }, [msg])
      else
        ({ t with outBuff := [], errBuff := [] }, [])
    else if outBuffsize ≠ 0 then
      if command.standardOutput == "CAPTURE_AND_RETURN" || command.standardOutput == "RETURN" then
        let t1 := { t with errBuff := [] }
        let msg := createResponseMessage command.uuid t1.processpid
          command.requestSequenceNumber t1.responsecount t1.errBuff t1.outBuff
          command.source command.taskUuid
        ({ t1 with responsecount := t1.responsecount + 1, outBuff := [] }, [msg])
      else
        ({ t with outBuff := [], errBuff := [] }, [])
    else
      if command.standardError == "CAPTURE_AND_RETURN" || command.standardError == "RETURN" then
        let t1 := { t with outBuff := [] }
        let msg := createResponseMessage command.uuid t1.processpid
          command.requestSequenceNumber t1.responsecount t1.errBuff t1.outBuff
          command.source command.taskUuid
        ({ t1 with responsecount := t1.responsecount + 1, errBuff := [] }, [msg])
      else
        ({ t with outBuff := [], errBuff := [] }, [])
  else (t, [])

/-- `KAThread::checkAndWrite` (lines 291-382): append the stream buffers
to the real buffers, flag stderr activity, and fragment oversized buffers
into at most one `MaxBuffSize` packet per call.  Capture-file appends
(`openFile`/`appendFile`/`closeFile`) are filesystem effects outside the
modelled state. -/
def checkAndWrite (command : KACommand) (t0 : KAThread) : KAThread × List Response :=
  let MaxBuffSize : Nat := 1000
  let ta := { t0 with outBuff := t0.outBuff ++ t0.outputStream.buffer,
                      outputStream := { t0.outputStream with buffer := [] } }
  let tb := { ta with errBuff := ta.errBuff ++ ta.errorStream.buffer,
                      errorStream := { ta.errorStream with buffer := [] } }
  let outBuffsize := tb.outBuff.length
  let errBuffsize := tb.errBuff.length
  let t := if errBuffsize > 0 then { tb with EXITSTATUS := 1 } else tb
  if outBuffsize ≥ MaxBuffSize ∧ errBuffsize ≥ MaxBuffSize then
    let divisionOut := t.outBuff.drop MaxBuffSize
    let divisionErr := t.errBuff.drop MaxBuffSize
    let t1 := { t with outBuff := t.outBuff.take MaxBuffSize,
                       errBuff := t.errBuff.take MaxBuffSize }
    let cs := checkAndSend command t1
    ({ cs.1 with outBuff := divisionOut, errBuff := divisionErr }, cs.2)
  else if outBuffsize ≥ MaxBuffSize then
    let divisionOut := t.outBuff.drop MaxBuffSize
    let t1 := { t with outBuff := t.outBuff.take MaxBuffSize }
    let cs := checkAndSend command t1
    ({ cs.1 with outBuff := divisionOut, errBuff := [] }, cs.2)
  else if errBuffsize ≥ MaxBuffSize then
    let divisionErr := t.errBuff.drop MaxBuffSize
    let t1 := { t with errBuff := t.errBuff.take MaxBuffSize }
    let cs := checkAndSend command t1
    ({ cs.1 with errBuff := divisionErr, outBuff := [] }, cs.2)
  else (t, [])

/-- The heartbeat emission block of `KAThread::optionReadSend`
(lines 546-594, without the timer resets done by the caller): redact
non-returning buffers, then send one message. -/
def heartbeatSend (command : KACommand) (t : KAThread) : KAThread × List Response :=
  if t.outBuff.isEmpty && t.errBuff.isEmpty then
    let msg := createResponseMessage command.uuid t.processpid
      command.requestSequenceNumber t.responsecount [] [] command.source command.taskUuid
    ({ t with responsecount := t.responsecount + 1 }, [msg])
  else
    let t1 :=
      if (command.standardOutput == "CAPTURE" || command.standardOutput == "NO")
          && (command.standardError == "CAPTURE" || command.standardError == "NO") then
        { t with outBuff := [], errBuff := [] }
      else if command.standardOutput == "CAPTURE" || command.standardOutput == "NO" then
        { t with outBuff := [] }
      else if command.standardError == "CAPTURE" || command.standardError == "NO" then
        { t with errBuff := [] }
      else t
    let msg := createResponseMessage command.uuid t1.processpid
      command.requestSequenceNumber t1.responsecount t1.errBuff t1.outBuff
      command.source command.taskUuid
    ({ t1 with errBuff := [], outBuff := [], responsecount := t1.responsecount + 1 }, [msg])

/-- The per-iteration inputs of the multiplex loop: the two select results,
the bytes delivered by a read on each stream (empty = EOF read, read
result 0), and the seconds-of-minute values returned by the clock at the
execution-timer fetch and at the heartbeat-timer fetches of the
iteration. -/
structure LoopEvent where
  outSelect : Int
  errSelect : Int
  outData : Buf
  errData : Buf
  execNow : Nat
  heartNow : Nat
deriving DecidableEq

/-- The loop-local state of `KAThread::optionReadSend`: the thread state,
the two timer variable groups, the heartbeat threshold variable (always
reset to 30) and the `EXECTIMEOUT` flag.  `errSeen` is an observer only:
it accumulates every byte read from the stderr pipe and is never read by
the transition functions. -/
structure LoopState where
  t : KAThread
  execTimer : TimerState
  heartTimer : TimerState
  exectimeoutheat : Nat
  EXECTIMEOUT : Bool
  errSeen : Buf
deriving DecidableEq

/-- Lines 517-526: storing the two select results in the stream readers. -/
def setSelects (ev : LoopEvent) (t : KAThread) : KAThread :=
  { t with outputStream := { t.outputStream with selectResult := ev.outSelect },
           errorStream := { t.errorStream with selectResult := ev.errSelect } }

/-- Lines 535-595: the activity-flag reset of the heartbeat timer, or the
heartbeat check followed by the heartbeat emission and timer reset. -/
def heartPhase (command : KACommand) (ev : LoopEvent) (s : LoopState) :
    LoopState × List Response :=
  if s.t.ACTFLAG then
    ({ s with t := { s.t with ACTFLAG := false },
              heartTimer := { startsec := ev.heartNow, overflag := false, count := 0 },
              exectimeoutheat := 30 }, [])
  else
    let hc := checkExecutionTimeout ev.heartNow s.exectimeoutheat s.heartTimer
    if hc.2 then
      let hs := heartbeatSend command s.t
      ({ s with t := hs.1,
                heartTimer := { startsec := ev.heartNow, overflag := false, count := 0 },
                exectimeoutheat := 30 }, hs.2)
    else
      ({ s with heartTimer := hc.1 }, [])

/-- Lines 603-630: the reads.  A stream is read only when its select
result is positive; the read clears the stream buffer and stores the
delivered bytes and their count.  Any positive select sets the activity
flag. -/
def readPhase (ev : LoopEvent) (t : KAThread) : KAThread :=
  let t1 :=
    if ev.outSelect > 0 then
      let os := { t.outputStream with buffer := ev.outData, readResult := ev.outData.length }
      { t with outputStream := os }
    else t
  let t2 :=
    if ev.errSelect > 0 then
      let es := { t1.errorStream with buffer := ev.errData, readResult := ev.errData.length }
      { t1 with errorStream := es }
    else t1
  if ev.outSelect > 0 || ev.errSelect > 0 then { t2 with ACTFLAG := true } else t2

/-- Outcome of one iteration of the multiplex loop. -/
inductive StepOut
  | cont (s : LoopState) (ms : List Response)
  | brkTimeout (s : LoopState) (ms : List Response)
  | brkEof (s : LoopState) (ms : List Response)
  | selErr (s : LoopState) (ms : List Response)
deriving DecidableEq

/-- The state carried by a step outcome. -/
def StepOut.state : StepOut → LoopState
  | .cont s _ => s
  | .brkTimeout s _ => s
  | .brkEof s _ => s
  | .selErr s _ => s

/-- The messages emitted by a step outcome. -/
def StepOut.msgs : StepOut → List Response
  | .cont _ ms => ms
  | .brkTimeout _ ms => ms
  | .brkEof _ ms => ms
  | .selErr _ ms => ms

/-- The loop state after storing the select results and advancing the
execution timer (the state the heartbeat phase sees). -/
def midState (command : KACommand) (ev : LoopEvent) (s : LoopState) : LoopState :=
  { s with
    t := setSelects ev s.t
    execTimer := (checkExecutionTimeout ev.execNow command.timeout s.execTimer).1 }

/-- The loop state after the heartbeat phase, the reads and the stderr
observer update of an iteration (the state `checkAndWrite` or the EOF
break sees). -/
def readState (command : KACommand) (ev : LoopEvent) (s : LoopState) : LoopState :=
  { (heartPhase command ev (midState command ev s)).1 with
    t := readPhase ev (heartPhase command ev (midState command ev s)).1.t
    errSeen := (heartPhase command ev (midState command ev s)).1.errSeen ++
      (if ev.errSelect > 0 then ev.errData else []) }

/-- One iteration of the multiplex loop of `KAThread::optionReadSend`
(lines 515-651), in source order: store selects, execution-timeout check
(break), heartbeat phase, select-error check (return -1), reads, activity
flag, then either `checkAndWrite` (continue) or the EOF break. -/
def loopIter (command : KACommand) (s : LoopState) (ev : LoopEvent) : StepOut :=
  if (checkExecutionTimeout ev.execNow command.timeout s.execTimer).2 then
    .brkTimeout { midState command ev s with EXECTIMEOUT := true } []
  else
    if ev.outSelect == -1 || ev.errSelect == -1 then
      .selErr (heartPhase command ev (midState command ev s)).1
        (heartPhase command ev (midState command ev s)).2
    else
      if (readState command ev s).t.outputStream.readResult > 0 ∨
          (readState command ev s).t.errorStream.readResult > 0 then
        .cont { readState command ev s with
                t := (checkAndWrite command (readState command ev s).t).1 }
          ((heartPhase command ev (midState command ev s)).2 ++
            (checkAndWrite command (readState command ev s).t).2)
      else
        .brkEof (readState command ev s) (heartPhase command ev (midState command ev s)).2

/-- How a run of the multiplex loop ended. -/
inductive LoopEnd
  | timeoutEnd
  | eofEnd
  | selErrEnd
  | exhausted
deriving DecidableEq

/-- Driving the multiplex loop over a list of per-iteration inputs.
`exhausted` marks a run whose event list ended while the loop would have
kept going. -/
def runLoop (command : KACommand) (s : LoopState) :
    List LoopEvent → LoopState × List Response × LoopEnd
  | [] => (s, [], .exhausted)
  | ev :: evs =>
    match loopIter command s ev with
    | .cont s1 ms =>
      let r := runLoop command s1 evs
      (r.1, ms ++ r.2.1, r.2.2)
    | .brkTimeout s1 ms => (s1, ms, .timeoutEnd)
    | .brkEof s1 ms => (s1, ms, .eofEnd)
    | .selErr s1 ms => (s1, ms, .selErrEnd)

/-- Lines 653-696: the code after the multiplex loop.  On `EXECTIMEOUT`
drain and emit one Timeout (the SIGKILL of the resolved pid is an OS
effect outside the state); then, whenever both stored read results are
zero, compute the exit code, drain, and emit one Exit.  Neither terminal
message advances the response counter. -/
def postLoop (command : KACommand) (s : LoopState) : KAThread × List Response :=
  let p1 :=
    if s.EXECTIMEOUT then
      let fl := lastCheckAndSend command s.t
      let tmsg := createTimeoutMessage command.uuid fl.1.processpid
        command.requestSequenceNumber fl.1.responsecount [] [] command.source command.taskUuid
      (fl.1, fl.2 ++ [tmsg])
    else (s.t, ([] : List Response))
  if p1.1.errorStream.readResult = 0 ∧ p1.1.outputStream.readResult = 0 then
    let exitcode : Nat :=
      if p1.1.EXITSTATUS ≠ 0 ∨ p1.1.CWDERR = true ∨ p1.1.UIDERR = true then 1 else 0
    let fl2 := lastCheckAndSend command p1.1
    let emsg := createExitMessage command.uuid fl2.1.processpid
      command.requestSequenceNumber fl2.1.responsecount command.source command.taskUuid exitcode
    (fl2.1, p1.2 ++ fl2.2 ++ [emsg])
  else p1

/-- Process-identity operations performed through `KAUserID`
(`doSetuid` on a successful lookup, `undoSetuid` on a failed one,
KAThread.cpp lines 58-73). -/
inductive IdOp
  | doSetuid
  | undoSetuid
deriving DecidableEq

/-- The per-run inputs of `optionReadSend`: the pid resolved by the
pgrep-based discovery, the outcomes of the chdir and user lookups, the
initial seconds-of-minute values fetched for the two timers, the
(uninitialized in the source) initial stored read results, and the
per-iteration loop events. -/
structure RunInputs where
  discoveredPid : Int
  cwdOk : Bool
  uidOk : Bool
  startSec : Nat
  startHeartSec : Nat
  initOutRead : Nat
  initErrRead : Nat
  events : List LoopEvent
deriving DecidableEq

/-- How a full `optionReadSend` run ended. -/
inductive RunStatus
  | eofExit
  | timeoutExit
  | selectFail
  | outOfEvents
deriving DecidableEq

/-- Result of a run: final thread state, emitted messages in order,
identity operations performed by the parent-side code, the run status,
and the observer collecting all bytes read from the stderr pipe. -/
structure RunResult where
  t : KAThread
  msgs : List Response
  idOps : List IdOp
  status : RunStatus
  errSeen : Buf
deriving DecidableEq

/-- Lines 474-482: the parent-side `checkCWD` check with its synthetic
`responseCount=1` error response.  The chdir outcome is the input. -/
def cwdPhase (command : KACommand) (t : KAThread) (cwdOk : Bool) : KAThread × List Response :=
  if cwdOk then (t, [])
  else
    ({ t with CWDERR := true },
     [createResponseMessage command.uuid t.processpid command.requestSequenceNumber 1
        ("Working Directory Does Not Exist on System".data) [] command.source command.taskUuid])

/-- Lines 483-491: the parent-side `checkUID` check with its synthetic
`responseCount=1` error response.  `checkUID` itself applies `doSetuid`
when the lookup succeeds and `undoSetuid` when it fails (lines 58-73);
these identity operations are recorded. -/
def uidPhase (command : KACommand) (t : KAThread) (uidOk : Bool) :
    KAThread × List Response × List IdOp :=
  if uidOk then (t, [], [IdOp.doSetuid])
  else
    ({ t with UIDERR := true },
     [createResponseMessage command.uuid t.processpid command.requestSequenceNumber 1
        ("User Does Not Exist on System".data) [] command.source command.taskUuid],
     [IdOp.undoSetuid])

/-- Lines 493-511: the initial loop state built from the two timer starts. -/
def startState (inp : RunInputs) (t : KAThread) : LoopState :=
  { t := t,
    execTimer := { startsec := inp.startSec, overflag := false, count := 0 },
    heartTimer := { startsec := inp.startHeartSec, overflag := false, count := 0 },
    exectimeoutheat := 30, EXECTIMEOUT := false, errSeen := [] }

/-- The loop state at entry of the multiplex loop: pid stored, cwd and uid
checks done, timers started. -/
def preState (command : KACommand) (t0 : KAThread) (inp : RunInputs) : LoopState :=
  startState inp
    (uidPhase command
      (cwdPhase command { t0 with processpid := inp.discoveredPid } inp.cwdOk).1
      inp.uidOk).1

/-- The synthetic error responses emitted before the multiplex loop. -/
def preMsgs (command : KACommand) (t0 : KAThread) (inp : RunInputs) : List Response :=
  (cwdPhase command { t0 with processpid := inp.discoveredPid } inp.cwdOk).2 ++
    (uidPhase command
      (cwdPhase command { t0 with processpid := inp.discoveredPid } inp.cwdOk).1
      inp.uidOk).2.1

/-- The identity operations performed by the parent-side checks. -/
def preIdOps (command : KACommand) (t0 : KAThread) (inp : RunInputs) : List IdOp :=
  (uidPhase command
    (cwdPhase command { t0 with processpid := inp.discoveredPid } inp.cwdOk).1
    inp.uidOk).2.2

/-- `KAThread::optionReadSend` (lines 440-697): pid discovery (abstracted
to the supplied pid), the parent-side cwd and uid checks with their
synthetic `responseCount=1` error responses, the multiplex loop, and the
post-loop terminal messages. -/
def optionReadSend (command : KACommand) (t0 : KAThread) (inp : RunInputs) : RunResult :=
  let r := runLoop command (preState command t0 inp) inp.events
  match r.2.2 with
  | .timeoutEnd =>
    let pl := postLoop command r.1
    { t := pl.1, msgs := preMsgs command t0 inp ++ r.2.1 ++ pl.2,
      idOps := preIdOps command t0 inp, status := .timeoutExit, errSeen := r.1.errSeen }
  | .eofEnd =>
    let pl := postLoop command r.1
    { t := pl.1, msgs := preMsgs command t0 inp ++ r.2.1 ++ pl.2,
      idOps := preIdOps command t0 inp, status := .eofExit, errSeen := r.1.errSeen }
  | .selErrEnd =>
    { t := r.1.t, msgs := preMsgs command t0 inp ++ r.2.1,
      idOps := preIdOps command t0 inp, status := .selectFail, errSeen := r.1.errSeen }
  | .exhausted =>
    { t := r.1.t, msgs := preMsgs command t0 inp ++ r.2.1,
      idOps := preIdOps command t0 inp, status := .outOfEvents, errSeen := r.1.errSeen }

/-- A full run of the forked worker: fresh `KAThread` state, stream setup
from the command, then `optionReadSend`. -/
def runWorker (command : KACommand) (inp : RunInputs) : RunResult :=
  optionReadSend command (initThread command inp.initOutRead inp.initErrRead) inp

/-- Outcome of the inner (post-fork) child of `KAThread::threadFunction`
(lines 732-761): it kills itself on a failed cwd or uid check, otherwise
it executes the command through the shell. -/
inductive ChildOutcome
  | killedCwd
  | killedUid
  | execRun
deriving DecidableEq

/-- The inner child's checks in source order: `checkCWD` (no identity
operation), then `checkUID`, which applies `doSetuid` on success and
`undoSetuid` on failure, then the shell exec. -/
def innerChild (cwdOk uidOk : Bool) : ChildOutcome × List IdOp :=
  if !cwdOk then (.killedCwd, [])
  else if !uidOk then (.killedUid, [IdOp.undoSetuid])
  else (.execRun, [IdOp.doSetuid])

/-- Observable outcome of the worker branch of `KAThread::threadFunction`
(lines 710-789). -/
structure WorkerResult where
  loggedPipeError : Bool
  innerForked : Bool
  run : RunResult
deriving DecidableEq

/-- The worker branch of `KAThread::threadFunction` (lines 710-789) as a
function of whether the two `openPipe` calls succeeded: a pipe-open
failure is only logged (lines 726-730) and control falls through to the
inner fork and the multiplex loop either way. -/
def threadFunctionWorker (command : KACommand) (pipesOk : Bool) (inp : RunInputs) :
    WorkerResult :=
  { loggedPipeError := !pipesOk, innerForked := true, run := runWorker command inp }

/-- The responseCount values carried by a list of messages. -/
def countsOf (ms : List Response) : List Nat := ms.map fun m => m.responseCount

/-- Number of Exit messages in a list. -/
def exitCount (ms : List Response) : Nat := ms.countP fun m => m.rtype == RespType.exitMsg

/-- Number of Timeout messages in a list. -/
def timeoutCount (ms : List Response) : Nat := ms.countP fun m => m.rtype == RespType.timeoutMsg

/-- Stdout payload sizes of the Progress-shaped messages of a list. -/
def progressOutLens (ms : List Response) : List Nat :=
  (ms.filter fun m => m.rtype == RespType.progress).map fun m => m.stdOut.length

/-- Discipline of the emissions of a counter-carrying code block: starting
from counter value `k` it emits the count list `cs` and leaves the counter
at `k1`.  Counts are emitted in non-decreasing order, stay between the two
counter values, and the first one equals the entry value. -/
structure EmitsFrom (k : Nat) (cs : List Nat) (k1 : Nat) : Prop where
  chain : List.Chain' (· ≤ ·) cs
  bounds : ∀ c ∈ cs, k ≤ c ∧ c ≤ k1
  mono : k ≤ k1
  nil_eq : cs = [] → k1 = k
  head_eq : ∀ c ∈ cs.head?, c = k

/-- An empty emission leaves the counter unchanged. -/
theorem EmitsFrom.nil (k : Nat) : EmitsFrom k [] k :=
  ⟨List.chain'_nil, by simp, le_refl k, fun _ => rfl, by simp⟩

/-- A single message carrying the entry counter value. -/
theorem EmitsFrom.single {k k1 : Nat} (h : k ≤ k1) : EmitsFrom k [k] k1 :=
  ⟨List.chain'_singleton k, by simpa using h, h, by simp, by simp⟩

/-- Sequencing two emitting blocks. -/
theorem EmitsFrom.trans {k k1 k2 : Nat} {a b : List Nat}
    (h1 : EmitsFrom k a k1) (h2 : EmitsFrom k1 b k2) : EmitsFrom k (a ++ b) k2 := by
  refine ⟨?_, ?_, le_trans h1.mono h2.mono, ?_, ?_⟩
  · refine List.Chain'.append h1.chain h2.chain ?_
    intro x hx y hy
    have hx1 : x ∈ a := by
      cases a with
      | nil => simp at hx
      | cons z zs => exact List.mem_of_mem_getLast? hx
    have hxk : x ≤ k1 := (h1.bounds x hx1).2
    have hyk : y = k1 := h2.head_eq y hy
    omega
  · intro c hc
    rcases List.mem_append.1 hc with h | h
    · exact ⟨(h1.bounds c h).1, le_trans (h1.bounds c h).2 h2.mono⟩
    · exact ⟨le_trans h1.mono (h2.bounds c h).1, (h2.bounds c h).2⟩
  · intro h
    rcases List.append_eq_nil.1 h with ⟨ha, hb⟩
    rw [h2.nil_eq hb, h1.nil_eq ha]
  · intro c hc
    cases a with
    | nil =>
      have := h2.head_eq c (by simpa using hc)
      rw [this, h1.nil_eq rfl]
    | cons z zs => exact h1.head_eq c (by simpa using hc)

/-- `checkAndSend` emits its message (if any) at the entry counter value
and advances the counter accordingly. -/
theorem checkAndSend_emits (c : KACommand) (t : KAThread) (k : Nat) (hk : t.responsecount = k) :
    EmitsFrom k (countsOf (checkAndSend c t).2) (checkAndSend c t).1.responsecount := by
  subst hk
  unfold checkAndSend
  split_ifs <;>
    simp only [countsOf, List.map, createResponseMessage] <;>
    first
      | exact EmitsFrom.nil _
      | exact EmitsFrom.single (Nat.le_succ _)

/-- Every message of `checkAndSend` is Progress-shaped. -/
theorem checkAndSend_progress (c : KACommand) (t : KAThread) :
    ∀ m ∈ (checkAndSend c t).2, m.rtype = RespType.progress := by
  unfold checkAndSend
  split_ifs <;> simp [createResponseMessage]

/-- `checkAndSend` only touches the buffers and the counter. -/
theorem checkAndSend_frame (c : KACommand) (t : KAThread) :
    (checkAndSend c t).1.CWDERR = t.CWDERR ∧ (checkAndSend c t).1.UIDERR = t.UIDERR ∧
    (checkAndSend c t).1.EXITSTATUS = t.EXITSTATUS ∧
    (checkAndSend c t).1.processpid = t.processpid ∧
    (checkAndSend c t).1.ACTFLAG = t.ACTFLAG ∧
    (checkAndSend c t).1.outputStream = t.outputStream ∧
    (checkAndSend c t).1.errorStream = t.errorStream := by
  unfold checkAndSend
  split_ifs <;> simp

/-- `checkAndSend` either keeps or clears the error buffer. -/
theorem checkAndSend_errBuff (c : KACommand) (t : KAThread) :
    (checkAndSend c t).1.errBuff = t.errBuff ∨ (checkAndSend c t).1.errBuff = [] := by
  unfold checkAndSend
  split_ifs <;> simp

/-- Payloads of the message of `checkAndSend` come from the buffers it was
handed (possibly redacted to empty). -/
theorem checkAndSend_payloads (c : KACommand) (t : KAThread) :
    ∀ m ∈ (checkAndSend c t).2,
      (m.stdOut = t.outBuff ∨ m.stdOut = []) ∧ (m.stdErr = t.errBuff ∨ m.stdErr = []) := by
  unfold checkAndSend
  split_ifs <;> simp [createResponseMessage]

/-- `heartbeatSend` emits exactly one message at the entry counter value
and advances the counter by one. -/
theorem heartbeatSend_emits (c : KACommand) (t : KAThread) (k : Nat) (hk : t.responsecount = k) :
    EmitsFrom k (countsOf (heartbeatSend c t).2) (heartbeatSend c t).1.responsecount := by
  subst hk
  unfold heartbeatSend
  split_ifs <;>
    simp only [countsOf, List.map, createResponseMessage] <;>
    exact EmitsFrom.single (Nat.le_succ _)

/-- Every message of `heartbeatSend` is Progress-shaped. -/
theorem heartbeatSend_progress (c : KACommand) (t : KAThread) :
    ∀ m ∈ (heartbeatSend c t).2, m.rtype = RespType.progress := by
  unfold heartbeatSend
  split_ifs <;> simp [createResponseMessage]

/-- `heartbeatSend` only touches the buffers and the counter. -/
theorem heartbeatSend_frame (c : KACommand) (t : KAThread) :
    (heartbeatSend c t).1.CWDERR = t.CWDERR ∧ (heartbeatSend c t).1.UIDERR = t.UIDERR ∧
    (heartbeatSend c t).1.EXITSTATUS = t.EXITSTATUS ∧
    (heartbeatSend c t).1.processpid = t.processpid ∧
    (heartbeatSend c t).1.ACTFLAG = t.ACTFLAG ∧
    (heartbeatSend c t).1.outputStream = t.outputStream ∧
    (heartbeatSend c t).1.errorStream = t.errorStream := by
  unfold heartbeatSend
  split_ifs <;> simp

/-- `heartbeatSend` either keeps or clears the error buffer. -/
theorem heartbeatSend_errBuff (c : KACommand) (t : KAThread) :
    (heartbeatSend c t).1.errBuff = t.errBuff ∨ (heartbeatSend c t).1.errBuff = [] := by
  unfold heartbeatSend
  split_ifs <;> simp

/-- `lastCheckAndSend` emits its message (if any) at the entry counter
value and advances the counter accordingly. -/
theorem lastCheckAndSend_emits (c : KACommand) (t : KAThread) (k : Nat) (hk : t.responsecount = k) :
    EmitsFrom k (countsOf (lastCheckAndSend c t).2)
      (lastCheckAndSend c t).1.responsecount := by
  subst hk
  simp only [lastCheckAndSend]
  split_ifs <;>
    simp only [countsOf, List.map, createResponseMessage] <;>
    first
      | exact EmitsFrom.nil _
      | exact EmitsFrom.single (Nat.le_succ _)

/-- Every message of `lastCheckAndSend` is Progress-shaped. -/
theorem lastCheckAndSend_progress (c : KACommand) (t : KAThread) :
    ∀ m ∈ (lastCheckAndSend c t).2, m.rtype = RespType.progress := by
  simp only [lastCheckAndSend]
  split_ifs <;> simp [createResponseMessage]

/-- `lastCheckAndSend` only touches the buffers and the counter. -/
theorem lastCheckAndSend_frame (c : KACommand) (t : KAThread) :
    (lastCheckAndSend c t).1.CWDERR = t.CWDERR ∧ (lastCheckAndSend c t).1.UIDERR = t.UIDERR ∧
    (lastCheckAndSend c t).1.EXITSTATUS = t.EXITSTATUS ∧
    (lastCheckAndSend c t).1.processpid = t.processpid ∧
    (lastCheckAndSend c t).1.ACTFLAG = t.ACTFLAG ∧
    (lastCheckAndSend c t).1.outputStream = t.outputStream ∧
    (lastCheckAndSend c t).1.errorStream = t.errorStream := by
  simp only [lastCheckAndSend]
  split_ifs <;> simp

/-- `checkAndWrite` emits its packets at the running counter values. -/
theorem checkAndWrite_emits (c : KACommand) (t : KAThread) (k : Nat)
    (hk : t.responsecount = k) :
    EmitsFrom k (countsOf (checkAndWrite c t).2)
      (checkAndWrite c t).1.responsecount := by
  subst hk
  simp only [checkAndWrite]
  split_ifs <;> simp <;>
    first
      | exact EmitsFrom.nil _
      | exact checkAndSend_emits c _ _ rfl

/-- Every message of `checkAndWrite` is Progress-shaped. -/
theorem checkAndWrite_progress (c : KACommand) (t : KAThread) :
    ∀ m ∈ (checkAndWrite c t).2, m.rtype = RespType.progress := by
  simp only [checkAndWrite]
  split_ifs <;> simp <;> exact checkAndSend_progress c _

/-- `checkAndWrite` clears the stream buffers and leaves the remaining
stream state, the pre-exec error flags, the pid and the activity flag
unchanged. -/
theorem checkAndWrite_frame (c : KACommand) (t : KAThread) :
    (checkAndWrite c t).1.CWDERR = t.CWDERR ∧ (checkAndWrite c t).1.UIDERR = t.UIDERR ∧
    (checkAndWrite c t).1.processpid = t.processpid ∧
    (checkAndWrite c t).1.ACTFLAG = t.ACTFLAG ∧
    (checkAndWrite c t).1.outputStream = { t.outputStream with buffer := [] } ∧
    (checkAndWrite c t).1.errorStream = { t.errorStream with buffer := [] } := by
  have h1 := fun t1 => checkAndSend_frame c t1
  simp only [checkAndWrite]
  split_ifs <;> simp <;>
    exact ⟨(h1 _).1, (h1 _).2.1, (h1 _).2.2.2.1, (h1 _).2.2.2.2.1,
      (h1 _).2.2.2.2.2.1, (h1 _).2.2.2.2.2.2⟩

/-- The exact exit-status update of `checkAndWrite`: the flag becomes 1
exactly when the (combined) error buffer holds bytes, and is otherwise
untouched. -/
theorem checkAndWrite_exitstatus (c : KACommand) (t : KAThread) :
    (checkAndWrite c t).1.EXITSTATUS =
      (if (t.errBuff ++ t.errorStream.buffer).length > 0 then 1 else t.EXITSTATUS) := by
  have h1 := fun t1 => (checkAndSend_frame c t1).2.2.1
  simp only [checkAndWrite]
  split_ifs <;> simp_all

/-- When no stderr bytes are present, `checkAndWrite` leaves the error
buffer empty. -/
theorem checkAndWrite_errBuff_empty (c : KACommand) (t : KAThread)
    (h : t.errBuff ++ t.errorStream.buffer = []) :
    (checkAndWrite c t).1.errBuff = [] := by
  have h1 := fun t1 => checkAndSend_errBuff c t1
  simp only [checkAndWrite]
  split_ifs <;> simp_all

/-- `readPhase` only touches the streams and the activity flag. -/
theorem readPhase_frame (ev : LoopEvent) (t : KAThread) :
    (readPhase ev t).responsecount = t.responsecount ∧
    (readPhase ev t).CWDERR = t.CWDERR ∧
    (readPhase ev t).UIDERR = t.UIDERR ∧
    (readPhase ev t).EXITSTATUS = t.EXITSTATUS ∧
    (readPhase ev t).processpid = t.processpid ∧
    (readPhase ev t).outBuff = t.outBuff ∧
    (readPhase ev t).errBuff = t.errBuff := by
  unfold readPhase
  split_ifs <;> simp

/-- The error-stream state after `readPhase`. -/
theorem readPhase_errStream (ev : LoopEvent) (t : KAThread) :
    (readPhase ev t).errorStream.buffer =
      (if ev.errSelect > 0 then ev.errData else t.errorStream.buffer) ∧
    (readPhase ev t).errorStream.readResult =
      (if ev.errSelect > 0 then ev.errData.length else t.errorStream.readResult) := by
  unfold readPhase
  split_ifs <;> simp_all

/-- The output-stream state after `readPhase`. -/
theorem readPhase_outStream (ev : LoopEvent) (t : KAThread) :
    (readPhase ev t).outputStream.buffer =
      (if ev.outSelect > 0 then ev.outData else t.outputStream.buffer) ∧
    (readPhase ev t).outputStream.readResult =
      (if ev.outSelect > 0 then ev.outData.length else t.outputStream.readResult) := by
  unfold readPhase
  split_ifs <;> simp_all

/-- `heartPhase` emits its heartbeat (if any) at the entry counter value
and advances the counter accordingly. -/
theorem heartPhase_emits (c : KACommand) (ev : LoopEvent) (s : LoopState) (k : Nat)
    (hk : s.t.responsecount = k) :
    EmitsFrom k (countsOf (heartPhase c ev s).2) (heartPhase c ev s).1.t.responsecount := by
  subst hk
  simp only [heartPhase]
  split_ifs <;>
    first
      | (simp only [countsOf, List.map]; exact EmitsFrom.nil _)
      | exact heartbeatSend_emits c _ _ rfl

/-- Every message of `heartPhase` is Progress-shaped. -/
theorem heartPhase_progress (c : KACommand) (ev : LoopEvent) (s : LoopState) :
    ∀ m ∈ (heartPhase c ev s).2, m.rtype = RespType.progress := by
  simp only [heartPhase]
  split_ifs <;> first
    | exact heartbeatSend_progress c _
    | simp

/-- `heartPhase` only touches the buffers, the counter, the activity flag
and the heartbeat timer. -/
theorem heartPhase_frame (c : KACommand) (ev : LoopEvent) (s : LoopState) :
    (heartPhase c ev s).1.t.CWDERR = s.t.CWDERR ∧
    (heartPhase c ev s).1.t.UIDERR = s.t.UIDERR ∧
    (heartPhase c ev s).1.t.EXITSTATUS = s.t.EXITSTATUS ∧
    (heartPhase c ev s).1.t.processpid = s.t.processpid ∧
    (heartPhase c ev s).1.t.outputStream = s.t.outputStream ∧
    (heartPhase c ev s).1.t.errorStream = s.t.errorStream ∧
    (heartPhase c ev s).1.EXECTIMEOUT = s.EXECTIMEOUT ∧
    (heartPhase c ev s).1.errSeen = s.errSeen ∧
    (heartPhase c ev s).1.execTimer = s.execTimer := by
  have h := fun t => heartbeatSend_frame c t
  simp only [heartPhase]
  split_ifs <;> simp_all

/-- `heartPhase` either keeps or clears the error buffer. -/
theorem heartPhase_errBuff (c : KACommand) (ev : LoopEvent) (s : LoopState) :
    (heartPhase c ev s).1.t.errBuff = s.t.errBuff ∨ (heartPhase c ev s).1.t.errBuff = [] := by
  have h := heartbeatSend_errBuff c s.t
  simp only [heartPhase]
  split_ifs <;> simp_all

/-- The stderr observer invariant: the exit-status flag is 1 exactly when
some stderr bytes have been read, and while no stderr byte has been read
the error buffers are empty. -/
def CInv (s : LoopState) : Prop :=
  (s.errSeen = [] → s.t.errBuff = [] ∧ s.t.errorStream.buffer = [] ∧ s.t.EXITSTATUS = 0) ∧
  (s.errSeen ≠ [] → s.t.EXITSTATUS = 1)

/-- `CInv` only depends on the observer, the error buffers and the
exit-status flag. -/
theorem CInv_of_eq {s1 s2 : LoopState} (h : CInv s1)
    (he : s2.errSeen = s1.errSeen) (hb : s2.t.errBuff = s1.t.errBuff)
    (hbf : s2.t.errorStream.buffer = s1.t.errorStream.buffer)
    (hx : s2.t.EXITSTATUS = s1.t.EXITSTATUS) : CInv s2 := by
  obtain ⟨h0, h1⟩ := h
  refine ⟨fun he2 => ?_, fun he2 => ?_⟩
  · rw [he] at he2
    obtain ⟨a, b, cx⟩ := h0 he2
    exact ⟨by rw [hb]; exact a, by rw [hbf]; exact b, by rw [hx]; exact cx⟩
  · rw [he] at he2
    rw [hx]
    exact h1 he2

/-- `midState` preserves the stderr observer invariant. -/
theorem cinv_midState (c : KACommand) (ev : LoopEvent) (s : LoopState) (h : CInv s) :
    CInv (midState c ev s) :=
  CInv_of_eq h rfl rfl rfl rfl

/-- The heartbeat phase preserves the stderr observer invariant. -/
theorem cinv_heartPhase (c : KACommand) (ev : LoopEvent) (s : LoopState) (h : CInv s) :
    CInv (heartPhase c ev s).1 := by
  obtain ⟨h0, h1⟩ := h
  obtain ⟨fc, fu, fx, fp, fo, fe, fT, fs, fti⟩ := heartPhase_frame c ev s
  have hb := heartPhase_errBuff c ev s
  refine ⟨fun he => ?_, fun he => ?_⟩
  · rw [fs] at he
    obtain ⟨e1, e2, e3⟩ := h0 he
    refine ⟨?_, ?_, ?_⟩
    · rcases hb with hb | hb
      · rw [hb]; exact e1
      · exact hb
    · rw [fe]; exact e2
    · rw [fx]; exact e3
  · rw [fs] at he
    rw [fx]
    exact h1 he

/-- One loop iteration preserves the stderr observer invariant. -/
theorem loopIter_cinv (c : KACommand) (s : LoopState) (ev : LoopEvent)
    (h : CInv s) : CInv (loopIter c s ev).state := by
  obtain ⟨g0, g1⟩ := cinv_heartPhase c ev (midState c ev s) (cinv_midState c ev s h)
  have hseen : (readState c ev s).errSeen =
      (heartPhase c ev (midState c ev s)).1.errSeen ++
        (if ev.errSelect > 0 then ev.errData else []) := rfl
  have hread : (readState c ev s).t =
      readPhase ev (heartPhase c ev (midState c ev s)).1.t := rfl
  have hre := readPhase_errStream ev (heartPhase c ev (midState c ev s)).1.t
  obtain ⟨r_rc, r_cw, r_ui, r_ex, r_pp, r_ob, r_eb⟩ :=
    readPhase_frame ev (heartPhase c ev (midState c ev s)).1.t
  simp only [loopIter]
  split_ifs with hef hsel hrd
  · -- brkTimeout: only the select results and the timer changed
    simp only [StepOut.state]
    exact CInv_of_eq (cinv_midState c ev s h) rfl rfl rfl rfl
  · -- selErr: the state after the heartbeat phase
    simp only [StepOut.state]
    exact ⟨g0, g1⟩
  · -- cont: the reads followed by checkAndWrite
    simp only [StepOut.state]
    have hcx := checkAndWrite_exitstatus c (readState c ev s).t
    have hcf := checkAndWrite_frame c (readState c ev s).t
    refine ⟨fun he => ?_, fun he => ?_⟩
    · have he2 : (readState c ev s).errSeen = [] := he
      rw [hseen] at he2
      obtain ⟨ha, hb2⟩ := List.append_eq_nil.1 he2
      obtain ⟨e1, e2, e3⟩ := g0 ha
      have herrb : (readState c ev s).t.errBuff = [] := by
        rw [hread, r_eb]; exact e1
      have hbuf : (readState c ev s).t.errorStream.buffer = [] := by
        rw [hread, hre.1]
        split_ifs with hgt
        · simpa [hgt] using hb2
        · exact e2
      have hcomb : (readState c ev s).t.errBuff ++
          (readState c ev s).t.errorStream.buffer = [] := by
        rw [herrb, hbuf]; rfl
      refine ⟨checkAndWrite_errBuff_empty c _ hcomb, ?_, ?_⟩
      · rw [hcf.2.2.2.2.2]
      · rw [hcx, hcomb]
        simp only [List.length_nil, gt_iff_lt, Nat.lt_irrefl, if_false]
        rw [hread, r_ex]
        exact e3
    · have he2 : (readState c ev s).errSeen ≠ [] := he
      rw [hseen] at he2
      rw [hcx]
      by_cases hold : (heartPhase c ev (midState c ev s)).1.errSeen = []
      · have hnew : (if ev.errSelect > 0 then ev.errData else ([] : Buf)) ≠ [] := by
          intro hcontra
          exact he2 (by rw [hold, hcontra]; rfl)
        have hgt : ev.errSelect > 0 := by
          by_contra hng
          simp [hng] at hnew
        have hdata : ev.errData ≠ [] := by simpa [hgt] using hnew
        have hbuf : (readState c ev s).t.errorStream.buffer = ev.errData := by
          rw [hread, hre.1]
          simp [hgt]
        have hlen : ((readState c ev s).t.errBuff ++
            (readState c ev s).t.errorStream.buffer).length > 0 := by
          rw [List.length_append, hbuf]
          have := List.length_pos.2 hdata
          omega
        rw [if_pos hlen]
      · have hex : (readState c ev s).t.EXITSTATUS = 1 := by
          rw [hread, r_ex]
          exact g1 hold
        split_ifs <;> simp [hex]
  · -- brkEof: the reads delivered nothing
    simp only [StepOut.state]
    have hzero : (readState c ev s).t.errorStream.readResult = 0 := by omega
    have hnodata : ev.errSelect > 0 → ev.errData = [] := by
      intro hgt
      have h2 := hre.2
      rw [← hread] at h2
      rw [hzero] at h2
      simp [hgt] at h2
      exact List.length_eq_zero.1 h2.symm
    refine ⟨fun he => ?_, fun he => ?_⟩
    · have he2 : (readState c ev s).errSeen = [] := he
      rw [hseen] at he2
      obtain ⟨ha, hb2⟩ := List.append_eq_nil.1 he2
      obtain ⟨e1, e2, e3⟩ := g0 ha
      refine ⟨?_, ?_, ?_⟩
      · rw [hread, r_eb]; exact e1
      · rw [hread, hre.1]
        split_ifs with hgt
        · exact hnodata hgt
        · exact e2
      · rw [hread, r_ex]; exact e3
    · have he2 : (readState c ev s).errSeen ≠ [] := he
      rw [hseen] at he2
      have hold : (heartPhase c ev (midState c ev s)).1.errSeen ≠ [] := by
        intro hcontra
        apply he2
        rw [hcontra]
        simp only [List.nil_append]
        split_ifs with hgt
        · exact hnodata hgt
        · rfl
      rw [hread, r_ex]
      exact g1 hold

/-- The thread state carried by `readState`, unfolded. -/
theorem readState_t (c : KACommand) (ev : LoopEvent) (s : LoopState) :
    (readState c ev s).t = readPhase ev (heartPhase c ev (midState c ev s)).1.t := rfl

/-- `countsOf` distributes over append. -/
theorem countsOf_append (a b : List Response) :
    countsOf (a ++ b) = countsOf a ++ countsOf b := List.map_append _ _ _

/-- One loop iteration emits its messages at the running counter values. -/
theorem loopIter_emits (c : KACommand) (s : LoopState) (ev : LoopEvent) :
    EmitsFrom s.t.responsecount (countsOf (loopIter c s ev).msgs)
      (loopIter c s ev).state.t.responsecount := by
  obtain ⟨r_rc, r_cw, r_ui, r_ex, r_pp, r_ob, r_eb⟩ :=
    readPhase_frame ev (heartPhase c ev (midState c ev s)).1.t
  simp only [loopIter]
  split_ifs with hef hsel hrd
  · simp only [StepOut.state, StepOut.msgs, countsOf, List.map]
    exact EmitsFrom.nil _
  · simp only [StepOut.state, StepOut.msgs]
    exact heartPhase_emits c ev (midState c ev s) _ rfl
  · simp only [StepOut.state, StepOut.msgs]
    rw [countsOf_append]
    refine EmitsFrom.trans (heartPhase_emits c ev (midState c ev s) _ rfl) ?_
    exact checkAndWrite_emits c _ _ (by rw [readState_t]; exact r_rc)
  · simp only [StepOut.state, StepOut.msgs]
    have h1 := heartPhase_emits c ev (midState c ev s) s.t.responsecount rfl
    have h2 : (readState c ev s).t.responsecount =
        (heartPhase c ev (midState c ev s)).1.t.responsecount := by
      rw [readState_t]; exact r_rc
    rw [show (readState c ev s).t.responsecount =
        (heartPhase c ev (midState c ev s)).1.t.responsecount from h2]
    exact h1

/-- Every message of one loop iteration is Progress-shaped. -/
theorem loopIter_progress (c : KACommand) (s : LoopState) (ev : LoopEvent) :
    ∀ m ∈ (loopIter c s ev).msgs, m.rtype = RespType.progress := by
  simp only [loopIter]
  split_ifs with hef hsel hrd
  · simp [StepOut.msgs]
  · simp only [StepOut.msgs]
    exact heartPhase_progress c ev _
  · simp only [StepOut.msgs]
    intro m hm
    rcases List.mem_append.1 hm with hm | hm
    · exact heartPhase_progress c ev _ m hm
    · exact checkAndWrite_progress c _ m hm
  · simp only [StepOut.msgs]
    exact heartPhase_progress c ev _

/-- One loop iteration does not change the pre-exec error flags or the
resolved pid. -/
theorem loopIter_flags (c : KACommand) (s : LoopState) (ev : LoopEvent) :
    (loopIter c s ev).state.t.CWDERR = s.t.CWDERR ∧
    (loopIter c s ev).state.t.UIDERR = s.t.UIDERR ∧
    (loopIter c s ev).state.t.processpid = s.t.processpid := by
  obtain ⟨fc, fu, fx, fp, fo, fe, fT, fs, fti⟩ := heartPhase_frame c ev (midState c ev s)
  obtain ⟨r_rc, r_cw, r_ui, r_ex, r_pp, r_ob, r_eb⟩ :=
    readPhase_frame ev (heartPhase c ev (midState c ev s)).1.t
  have hcf := checkAndWrite_frame c (readState c ev s).t
  have c1 : (readState c ev s).t.CWDERR = s.t.CWDERR := by
    rw [readState_t, r_cw]; exact fc
  have c2 : (readState c ev s).t.UIDERR = s.t.UIDERR := by
    rw [readState_t, r_ui]; exact fu
  have c3 : (readState c ev s).t.processpid = s.t.processpid := by
    rw [readState_t, r_pp]; exact fp
  simp only [loopIter]
  split_ifs with hef hsel hrd
  · exact ⟨rfl, rfl, rfl⟩
  · exact ⟨fc, fu, fp⟩
  · exact ⟨hcf.1.trans c1, hcf.2.1.trans c2, hcf.2.2.1.trans c3⟩
  · exact ⟨c1, c2, c3⟩

/-- A continuing iteration does not change `EXECTIMEOUT`. -/
theorem loopIter_cont_exec (c : KACommand) (s : LoopState) (ev : LoopEvent)
    {s1 : LoopState} {ms : List Response} (h : loopIter c s ev = .cont s1 ms) :
    s1.EXECTIMEOUT = s.EXECTIMEOUT := by
  obtain ⟨fc, fu, fx, fp, fo, fe, fT, fs, fti⟩ := heartPhase_frame c ev (midState c ev s)
  simp only [loopIter] at h
  split_ifs at h
  all_goals first
    | exact StepOut.noConfusion h
    | (cases h; exact fT)

/-- An EOF break leaves `EXECTIMEOUT` unchanged and happens exactly when
both stored read results are zero. -/
theorem loopIter_eof (c : KACommand) (s : LoopState) (ev : LoopEvent)
    {s1 : LoopState} {ms : List Response} (h : loopIter c s ev = .brkEof s1 ms) :
    s1.EXECTIMEOUT = s.EXECTIMEOUT ∧ s1.t.outputStream.readResult = 0 ∧
    s1.t.errorStream.readResult = 0 := by
  obtain ⟨fc, fu, fx, fp, fo, fe, fT, fs, fti⟩ := heartPhase_frame c ev (midState c ev s)
  simp only [loopIter] at h
  split_ifs at h with hef hsel hrd
  all_goals first
    | exact StepOut.noConfusion h
    | (cases h; push_neg at hrd; exact ⟨fT, by omega, by omega⟩)

/-- A timeout break sets `EXECTIMEOUT` and emits nothing. -/
theorem loopIter_timeout (c : KACommand) (s : LoopState) (ev : LoopEvent)
    {s1 : LoopState} {ms : List Response} (h : loopIter c s ev = .brkTimeout s1 ms) :
    s1.EXECTIMEOUT = true := by
  simp only [loopIter] at h
  split_ifs at h
  all_goals first
    | exact StepOut.noConfusion h
    | (cases h; rfl)

/-- Unfolding `runLoop` on a continuing iteration. -/
theorem runLoop_cons_cont {c : KACommand} {s : LoopState} {ev : LoopEvent}
    {evs : List LoopEvent} {s1 : LoopState} {ms : List Response}
    (h : loopIter c s ev = .cont s1 ms) :
    runLoop c s (ev :: evs) =
      ((runLoop c s1 evs).1, ms ++ (runLoop c s1 evs).2.1, (runLoop c s1 evs).2.2) := by
  simp [runLoop, h]

/-- Unfolding `runLoop` on a timeout break. -/
theorem runLoop_cons_timeout {c : KACommand} {s : LoopState} {ev : LoopEvent}
    {evs : List LoopEvent} {s1 : LoopState} {ms : List Response}
    (h : loopIter c s ev = .brkTimeout s1 ms) :
    runLoop c s (ev :: evs) = (s1, ms, .timeoutEnd) := by
  simp [runLoop, h]

/-- Unfolding `runLoop` on an EOF break. -/
theorem runLoop_cons_eof {c : KACommand} {s : LoopState} {ev : LoopEvent}
    {evs : List LoopEvent} {s1 : LoopState} {ms : List Response}
    (h : loopIter c s ev = .brkEof s1 ms) :
    runLoop c s (ev :: evs) = (s1, ms, .eofEnd) := by
  simp [runLoop, h]

/-- Unfolding `runLoop` on a select error. -/
theorem runLoop_cons_selErr {c : KACommand} {s : LoopState} {ev : LoopEvent}
    {evs : List LoopEvent} {s1 : LoopState} {ms : List Response}
    (h : loopIter c s ev = .selErr s1 ms) :
    runLoop c s (ev :: evs) = (s1, ms, .selErrEnd) := by
  simp [runLoop, h]

/-- The multiplex loop emits its messages at the running counter values. -/
theorem runLoop_emits (c : KACommand) (evs : List LoopEvent) : ∀ s : LoopState,
    EmitsFrom s.t.responsecount (countsOf (runLoop c s evs).2.1)
      (runLoop c s evs).1.t.responsecount := by
  induction evs with
  | nil =>
    intro s
    simp only [runLoop, countsOf, List.map]
    exact EmitsFrom.nil _
  | cons ev evs ih =>
    intro s
    have hIt := loopIter_emits c s ev
    cases hLI : loopIter c s ev with
    | cont s1 ms =>
      rw [hLI] at hIt
      simp only [StepOut.state, StepOut.msgs] at hIt
      rw [runLoop_cons_cont hLI]
      simp only []
      rw [countsOf_append]
      exact EmitsFrom.trans hIt (ih s1)
    | brkTimeout s1 ms =>
      rw [hLI] at hIt
      simp only [StepOut.state, StepOut.msgs] at hIt
      rw [runLoop_cons_timeout hLI]
      exact hIt
    | brkEof s1 ms =>
      rw [hLI] at hIt
      simp only [StepOut.state, StepOut.msgs] at hIt
      rw [runLoop_cons_eof hLI]
      exact hIt
    | selErr s1 ms =>
      rw [hLI] at hIt
      simp only [StepOut.state, StepOut.msgs] at hIt
      rw [runLoop_cons_selErr hLI]
      exact hIt

/-- Every message emitted inside the multiplex loop is Progress-shaped. -/
theorem runLoop_progress (c : KACommand) (evs : List LoopEvent) : ∀ s : LoopState,
    ∀ m ∈ (runLoop c s evs).2.1, m.rtype = RespType.progress := by
  induction evs with
  | nil =>
    intro s
    simp [runLoop]
  | cons ev evs ih =>
    intro s
    have hIt := loopIter_progress c s ev
    cases hLI : loopIter c s ev with
    | cont s1 ms =>
      rw [hLI] at hIt
      simp only [StepOut.msgs] at hIt
      rw [runLoop_cons_cont hLI]
      intro m hm
      rcases List.mem_append.1 hm with hm | hm
      · exact hIt m hm
      · exact ih s1 m hm
    | brkTimeout s1 ms =>
      rw [hLI] at hIt
      simp only [StepOut.msgs] at hIt
      rw [runLoop_cons_timeout hLI]
      exact hIt
    | brkEof s1 ms =>
      rw [hLI] at hIt
      simp only [StepOut.msgs] at hIt
      rw [runLoop_cons_eof hLI]
      exact hIt
    | selErr s1 ms =>
      rw [hLI] at hIt
      simp only [StepOut.msgs] at hIt
      rw [runLoop_cons_selErr hLI]
      exact hIt

/-- The multiplex loop does not change the pre-exec error flags or the
resolved pid. -/
theorem runLoop_flags (c : KACommand) (evs : List LoopEvent) : ∀ s : LoopState,
    (runLoop c s evs).1.t.CWDERR = s.t.CWDERR ∧
    (runLoop c s evs).1.t.UIDERR = s.t.UIDERR ∧
    (runLoop c s evs).1.t.processpid = s.t.processpid := by
  induction evs with
  | nil =>
    intro s
    exact ⟨rfl, rfl, rfl⟩
  | cons ev evs ih =>
    intro s
    have hIt := loopIter_flags c s ev
    cases hLI : loopIter c s ev with
    | cont s1 ms =>
      rw [hLI] at hIt
      simp only [StepOut.state] at hIt
      rw [runLoop_cons_cont hLI]
      exact ⟨(ih s1).1.trans hIt.1, (ih s1).2.1.trans hIt.2.1, (ih s1).2.2.trans hIt.2.2⟩
    | brkTimeout s1 ms =>
      rw [hLI] at hIt
      simp only [StepOut.state] at hIt
      rw [runLoop_cons_timeout hLI]
      exact hIt
    | brkEof s1 ms =>
      rw [hLI] at hIt
      simp only [StepOut.state] at hIt
      rw [runLoop_cons_eof hLI]
      exact hIt
    | selErr s1 ms =>
      rw [hLI] at hIt
      simp only [StepOut.state] at hIt
      rw [runLoop_cons_selErr hLI]
      exact hIt

/-- The multiplex loop preserves the stderr observer invariant. -/
theorem runLoop_cinv (c : KACommand) (evs : List LoopEvent) : ∀ s : LoopState,
    CInv s → CInv (runLoop c s evs).1 := by
  induction evs with
  | nil =>
    intro s h
    exact h
  | cons ev evs ih =>
    intro s h
    have hIt := loopIter_cinv c s ev h
    cases hLI : loopIter c s ev with
    | cont s1 ms =>
      rw [hLI] at hIt
      simp only [StepOut.state] at hIt
      rw [runLoop_cons_cont hLI]
      exact ih s1 hIt
    | brkTimeout s1 ms =>
      rw [hLI] at hIt
      simp only [StepOut.state] at hIt
      rw [runLoop_cons_timeout hLI]
      exact hIt
    | brkEof s1 ms =>
      rw [hLI] at hIt
      simp only [StepOut.state] at hIt
      rw [runLoop_cons_eof hLI]
      exact hIt
    | selErr s1 ms =>
      rw [hLI] at hIt
      simp only [StepOut.state] at hIt
      rw [runLoop_cons_selErr hLI]
      exact hIt

/-- A loop run ending at EOF leaves `EXECTIMEOUT` unchanged and both
stored read results zero. -/
theorem runLoop_eofEnd (c : KACommand) (evs : List LoopEvent) : ∀ s : LoopState,
    (runLoop c s evs).2.2 = LoopEnd.eofEnd →
    ((runLoop c s evs).1.EXECTIMEOUT = s.EXECTIMEOUT ∧
     (runLoop c s evs).1.t.outputStream.readResult = 0 ∧
     (runLoop c s evs).1.t.errorStream.readResult = 0) := by
  induction evs with
  | nil =>
    intro s h
    simp [runLoop] at h
  | cons ev evs ih =>
    intro s
    cases hLI : loopIter c s ev with
    | cont s1 ms =>
      rw [runLoop_cons_cont hLI]
      intro h
      obtain ⟨e1, e2, e3⟩ := ih s1 h
      exact ⟨e1.trans (loopIter_cont_exec c s ev hLI), e2, e3⟩
    | brkTimeout s1 ms =>
      rw [runLoop_cons_timeout hLI]
      intro h
      exact absurd h (by simp)
    | brkEof s1 ms =>
      rw [runLoop_cons_eof hLI]
      intro h
      exact loopIter_eof c s ev hLI
    | selErr s1 ms =>
      rw [runLoop_cons_selErr hLI]
      intro h
      exact absurd h (by simp)

/-- A loop run ending by timeout has `EXECTIMEOUT` set. -/
theorem runLoop_timeoutEnd (c : KACommand) (evs : List LoopEvent) : ∀ s : LoopState,
    (runLoop c s evs).2.2 = LoopEnd.timeoutEnd →
    (runLoop c s evs).1.EXECTIMEOUT = true := by
  induction evs with
  | nil =>
    intro s h
    simp [runLoop] at h
  | cons ev evs ih =>
    intro s
    cases hLI : loopIter c s ev with
    | cont s1 ms =>
      rw [runLoop_cons_cont hLI]
      intro h
      exact ih s1 h
    | brkTimeout s1 ms =>
      rw [runLoop_cons_timeout hLI]
      intro h
      exact loopIter_timeout c s ev hLI
    | brkEof s1 ms =>
      rw [runLoop_cons_eof hLI]
      intro h
      exact absurd h (by simp)
    | selErr s1 ms =>
      rw [runLoop_cons_selErr hLI]
      intro h
      exact absurd h (by simp)

/-- `exitCount` distributes over append. -/
theorem exitCount_append (a b : List Response) :
    exitCount (a ++ b) = exitCount a + exitCount b := by
  simp [exitCount, List.countP_append]

/-- `timeoutCount` distributes over append. -/
theorem timeoutCount_append (a b : List Response) :
    timeoutCount (a ++ b) = timeoutCount a + timeoutCount b := by
  simp [timeoutCount, List.countP_append]

/-- A list of Progress-shaped messages holds no Exit. -/
theorem exitCount_progress_zero (ms : List Response)
    (h : ∀ m ∈ ms, m.rtype = RespType.progress) : exitCount ms = 0 := by
  simp only [exitCount]
  rw [List.countP_eq_zero]
  intro m hm
  simp [h m hm]

/-- A list of Progress-shaped messages holds no Timeout. -/
theorem timeoutCount_progress_zero (ms : List Response)
    (h : ∀ m ∈ ms, m.rtype = RespType.progress) : timeoutCount ms = 0 := by
  simp only [timeoutCount]
  rw [List.countP_eq_zero]
  intro m hm
  simp [h m hm]

/-- The post-loop block emits its messages at the running counter values. -/
theorem postLoop_emits (c : KACommand) (s : LoopState) (k : Nat)
    (hk : s.t.responsecount = k) :
    EmitsFrom k (countsOf (postLoop c s).2) (postLoop c s).1.responsecount := by
  subst hk
  have e1 := lastCheckAndSend_emits c s.t _ rfl
  have e2 := lastCheckAndSend_emits c (lastCheckAndSend c s.t).1 _ rfl
  by_cases hT : s.EXECTIMEOUT = true
  · simp only [postLoop]
    simp only [if_pos hT]
    by_cases hR : (lastCheckAndSend c s.t).1.errorStream.readResult = 0 ∧
        (lastCheckAndSend c s.t).1.outputStream.readResult = 0
    · rw [if_pos hR]
      simp only [countsOf_append]
      refine EmitsFrom.trans (EmitsFrom.trans (EmitsFrom.trans e1 ?_) e2) ?_
      · simp only [countsOf, List.map, createTimeoutMessage]
        exact EmitsFrom.single (le_refl _)
      · simp only [countsOf, List.map, createExitMessage]
        exact EmitsFrom.single (le_refl _)
    · rw [if_neg hR]
      simp only [countsOf_append]
      refine EmitsFrom.trans e1 ?_
      simp only [countsOf, List.map, createTimeoutMessage]
      exact EmitsFrom.single (le_refl _)
  · simp only [postLoop]
    simp only [if_neg hT]
    by_cases hR : s.t.errorStream.readResult = 0 ∧ s.t.outputStream.readResult = 0
    · rw [if_pos hR]
      simp only [countsOf_append]
      refine EmitsFrom.trans e1 ?_
      simp only [countsOf, List.map, createExitMessage]
      exact EmitsFrom.single (le_refl _)
    · rw [if_neg hR]
      simp only [countsOf, List.map]
      exact EmitsFrom.nil _

/-- Exact terminal-message counts of the post-loop block. -/
theorem postLoop_counts (c : KACommand) (s : LoopState) :
    timeoutCount (postLoop c s).2 = (if s.EXECTIMEOUT = true then 1 else 0) ∧
    exitCount (postLoop c s).2 =
      (if s.t.errorStream.readResult = 0 ∧ s.t.outputStream.readResult = 0 then 1 else 0) := by
  have f1 := lastCheckAndSend_frame c s.t
  have p1 := lastCheckAndSend_progress c s.t
  have p2 := lastCheckAndSend_progress c (lastCheckAndSend c s.t).1
  have z1e := exitCount_progress_zero _ p1
  have z1t := timeoutCount_progress_zero _ p1
  have z2e := exitCount_progress_zero _ p2
  have z2t := timeoutCount_progress_zero _ p2
  by_cases hT : s.EXECTIMEOUT = true
  · simp only [postLoop]
    simp only [if_pos hT]
    rw [f1.2.2.2.2.2.2, f1.2.2.2.2.2.1]
    by_cases hR : s.t.errorStream.readResult = 0 ∧ s.t.outputStream.readResult = 0
    · rw [if_pos hR, if_pos hR]
      constructor
      · rw [timeoutCount_append, timeoutCount_append, timeoutCount_append, z1t, z2t]
        simp [timeoutCount, createTimeoutMessage, createExitMessage, List.countP_cons]
      · rw [exitCount_append, exitCount_append, exitCount_append, z1e, z2e]
        simp [exitCount, createTimeoutMessage, createExitMessage, List.countP_cons]
    · rw [if_neg hR, if_neg hR]
      constructor
      · rw [timeoutCount_append, z1t]
        simp [timeoutCount, createTimeoutMessage, List.countP_cons]
      · rw [exitCount_append, z1e]
        simp [exitCount, createTimeoutMessage, List.countP_cons]
  · simp only [postLoop]
    simp only [if_neg hT]
    by_cases hR : s.t.errorStream.readResult = 0 ∧ s.t.outputStream.readResult = 0
    · rw [if_pos hR, if_pos hR]
      constructor
      · rw [timeoutCount_append, timeoutCount_append, z1t]
        simp [timeoutCount, createExitMessage, List.countP_cons]
      · rw [exitCount_append, exitCount_append, z1e]
        simp [exitCount, createExitMessage, List.countP_cons]
    · rw [if_neg hR, if_neg hR]
      simp [timeoutCount, exitCount]

/-- Every Exit message of the post-loop block carries the exit code
computed from the exit-status flag and the two pre-exec error flags. -/
theorem postLoop_exitCode (c : KACommand) (s : LoopState) :
    ∀ m ∈ (postLoop c s).2, m.rtype = RespType.exitMsg →
      m.exitCode = (if s.t.EXITSTATUS ≠ 0 ∨ s.t.CWDERR = true ∨ s.t.UIDERR = true
        then 1 else 0) := by
  have f1 := lastCheckAndSend_frame c s.t
  have p1 := lastCheckAndSend_progress c s.t
  have p2 := lastCheckAndSend_progress c (lastCheckAndSend c s.t).1
  by_cases hT : s.EXECTIMEOUT = true
  · simp only [postLoop]
    simp only [if_pos hT]
    by_cases hR : (lastCheckAndSend c s.t).1.errorStream.readResult = 0 ∧
        (lastCheckAndSend c s.t).1.outputStream.readResult = 0
    · rw [if_pos hR]
      intro m hm hx
      rcases List.mem_append.1 hm with hm | hm
      · rcases List.mem_append.1 hm with hm | hm
        · rcases List.mem_append.1 hm with hm | hm
          · exact absurd (p1 m hm) (by rw [hx]; simp)
          · rw [List.mem_singleton.1 hm] at hx
            exact absurd hx (by simp [createTimeoutMessage])
        · exact absurd (p2 m hm) (by rw [hx]; simp)
      · rw [List.mem_singleton.1 hm]
        simp only [createExitMessage]
        rw [f1.2.2.1, f1.1, f1.2.1]
    · rw [if_neg hR]
      intro m hm hx
      rcases List.mem_append.1 hm with hm | hm
      · exact absurd (p1 m hm) (by rw [hx]; simp)
      · rw [List.mem_singleton.1 hm] at hx
        exact absurd hx (by simp [createTimeoutMessage])
  · simp only [postLoop]
    simp only [if_neg hT]
    by_cases hR : s.t.errorStream.readResult = 0 ∧ s.t.outputStream.readResult = 0
    · rw [if_pos hR]
      intro m hm hx
      rcases List.mem_append.1 hm with hm | hm
      · rcases List.mem_append.1 hm with hm | hm
        · simp at hm
        · exact absurd (p1 m hm) (by rw [hx]; simp)
      · rw [List.mem_singleton.1 hm]
        simp only [createExitMessage]
    · rw [if_neg hR]
      intro m hm
      simp at hm

/-- When both stored read results are zero the post-loop block ends with
an Exit message carrying the computed exit code. -/
theorem postLoop_last (c : KACommand) (s : LoopState)
    (hR : s.t.errorStream.readResult = 0 ∧ s.t.outputStream.readResult = 0) :
    ∃ m, (postLoop c s).2.getLast? = some m ∧ m.rtype = RespType.exitMsg ∧
      m.exitCode = (if s.t.EXITSTATUS ≠ 0 ∨ s.t.CWDERR = true ∨ s.t.UIDERR = true
        then 1 else 0) ∧ (postLoop c s).2 ≠ [] := by
  have f1 := lastCheckAndSend_frame c s.t
  by_cases hT : s.EXECTIMEOUT = true
  · simp only [postLoop]
    simp only [if_pos hT]
    have hR1 : (lastCheckAndSend c s.t).1.errorStream.readResult = 0 ∧
        (lastCheckAndSend c s.t).1.outputStream.readResult = 0 := by
      rw [f1.2.2.2.2.2.2, f1.2.2.2.2.2.1]
      exact hR
    rw [if_pos hR1]
    refine ⟨_, List.getLast?_concat _, rfl, ?_, by simp⟩
    simp only [createExitMessage]
    rw [f1.2.2.1, f1.1, f1.2.1]
  · simp only [postLoop]
    simp only [if_neg hT]
    rw [if_pos hR]
    refine ⟨_, List.getLast?_concat _, rfl, rfl, by simp⟩

/-- The post-loop block does not change the streams, the pre-exec error
flags, the exit-status flag or the pid. -/
theorem postLoop_frame (c : KACommand) (s : LoopState) :
    (postLoop c s).1.errorStream = s.t.errorStream ∧
    (postLoop c s).1.outputStream = s.t.outputStream ∧
    (postLoop c s).1.CWDERR = s.t.CWDERR ∧
    (postLoop c s).1.UIDERR = s.t.UIDERR ∧
    (postLoop c s).1.EXITSTATUS = s.t.EXITSTATUS ∧
    (postLoop c s).1.processpid = s.t.processpid := by
  have f1 := lastCheckAndSend_frame c s.t
  have f2 := lastCheckAndSend_frame c (lastCheckAndSend c s.t).1
  by_cases hT : s.EXECTIMEOUT = true
  · simp only [postLoop]
    simp only [if_pos hT]
    split_ifs
    all_goals first
      | exact ⟨(f2.2.2.2.2.2.2).trans f1.2.2.2.2.2.2,
          (f2.2.2.2.2.2.1).trans f1.2.2.2.2.2.1, f2.1.trans f1.1, f2.2.1.trans f1.2.1,
          (f2.2.2.1).trans f1.2.2.1, (f2.2.2.2.1).trans f1.2.2.2.1⟩
      | exact ⟨f1.2.2.2.2.2.2, f1.2.2.2.2.2.1, f1.1, f1.2.1, f1.2.2.1, f1.2.2.2.1⟩
  · simp only [postLoop]
    simp only [if_neg hT]
    split_ifs
    all_goals first
      | exact ⟨f1.2.2.2.2.2.2, f1.2.2.2.2.2.1, f1.1, f1.2.1, f1.2.2.1, f1.2.2.2.1⟩
      | exact ⟨rfl, rfl, rfl, rfl, rfl, rfl⟩

/-- The fields of the loop-entry state in terms of the run inputs. -/
theorem preState_facts (c : KACommand) (t0 : KAThread) (inp : RunInputs)
    (h1 : t0.CWDERR = false) (h2 : t0.UIDERR = false) :
    (preState c t0 inp).t.CWDERR = !inp.cwdOk ∧
    (preState c t0 inp).t.UIDERR = !inp.uidOk ∧
    (preState c t0 inp).t.processpid = inp.discoveredPid ∧
    (preState c t0 inp).t.EXITSTATUS = t0.EXITSTATUS ∧
    (preState c t0 inp).t.errBuff = t0.errBuff ∧
    (preState c t0 inp).t.errorStream = t0.errorStream ∧
    (preState c t0 inp).t.outputStream = t0.outputStream ∧
    (preState c t0 inp).t.responsecount = t0.responsecount ∧
    (preState c t0 inp).EXECTIMEOUT = false ∧
    (preState c t0 inp).errSeen = [] := by
  simp only [preState, startState, uidPhase, cwdPhase]
  split_ifs <;> simp_all

/-- The synthetic error responses all carry responseCount 1 and are
Progress-shaped. -/
theorem preMsgs_facts (c : KACommand) (t0 : KAThread) (inp : RunInputs) :
    (∀ m ∈ preMsgs c t0 inp, m.rtype = RespType.progress ∧ m.responseCount = 1) := by
  simp only [preMsgs, uidPhase, cwdPhase]
  split_ifs <;> simp [createResponseMessage]

/-- The synthetic error responses satisfy the emission discipline from a
counter standing at 1 (they carry the literal count 1 and do not advance
the counter). -/
theorem preMsgs_emits (c : KACommand) (t0 : KAThread) (inp : RunInputs) :
    EmitsFrom 1 (countsOf (preMsgs c t0 inp)) 1 := by
  simp only [preMsgs, uidPhase, cwdPhase]
  split_ifs <;>
    simp only [countsOf, List.map, createResponseMessage, List.map_append, List.append_nil,
      List.nil_append] <;>
    first
      | exact EmitsFrom.nil _
      | exact EmitsFrom.single (le_refl 1)
      | exact EmitsFrom.trans (EmitsFrom.single (le_refl 1)) (EmitsFrom.single (le_refl 1))

/-- The loop-entry state of a fresh worker satisfies the stderr observer
invariant. -/
theorem cinv_preState (c : KACommand) (inp : RunInputs) :
    CInv (preState c (initThread c inp.initOutRead inp.initErrRead) inp) := by
  obtain ⟨f1, f2, f3, f4, f5, f6, f7, f8, f9, f10⟩ :=
    preState_facts c (initThread c inp.initOutRead inp.initErrRead) inp rfl rfl
  refine ⟨fun he => ?_, fun he => ?_⟩
  · refine ⟨?_, ?_, ?_⟩
    · rw [f5]; rfl
    · rw [f6]; rfl
    · rw [f4]; rfl
  · exact absurd f10 he

/-- The whole worker run emits its messages at the running counter values,
starting from 1. -/
theorem runWorker_emits (c : KACommand) (inp : RunInputs) :
    EmitsFrom 1 (countsOf (runWorker c inp).msgs) (runWorker c inp).t.responsecount := by
  have hpre := preMsgs_emits c (initThread c inp.initOutRead inp.initErrRead) inp
  have hrc : (preState c (initThread c inp.initOutRead inp.initErrRead) inp).t.responsecount = 1 :=
    (preState_facts c _ inp rfl rfl).2.2.2.2.2.2.2.1
  have hloop := runLoop_emits c inp.events (preState c (initThread c inp.initOutRead inp.initErrRead) inp)
  rw [hrc] at hloop
  have hpost := postLoop_emits c
    (runLoop c (preState c (initThread c inp.initOutRead inp.initErrRead) inp) inp.events).1 _ rfl
  cases hE : (runLoop c (preState c (initThread c inp.initOutRead inp.initErrRead) inp)
      inp.events).2.2 with
  | timeoutEnd =>
    simp only [runWorker, optionReadSend, hE]
    simp only [countsOf_append]
    exact EmitsFrom.trans (EmitsFrom.trans hpre hloop) hpost
  | eofEnd =>
    simp only [runWorker, optionReadSend, hE]
    simp only [countsOf_append]
    exact EmitsFrom.trans (EmitsFrom.trans hpre hloop) hpost
  | selErrEnd =>
    simp only [runWorker, optionReadSend, hE]
    simp only [countsOf_append]
    exact EmitsFrom.trans hpre hloop
  | exhausted =>
    simp only [runWorker, optionReadSend, hE]
    simp only [countsOf_append]
    exact EmitsFrom.trans hpre hloop

/-- The identity operations of the parent-side checks, as a function of
the uid lookup outcome. -/
theorem preIdOps_eq (c : KACommand) (t0 : KAThread) (inp : RunInputs) :
    preIdOps c t0 inp = (if inp.uidOk then [IdOp.doSetuid] else [IdOp.undoSetuid]) := by
  simp only [preIdOps, uidPhase]
  split_ifs <;> rfl

/-- Every payload field of a packet emitted by `checkAndWrite` holds at
most `MaxBuffSize = 1000` bytes. -/
theorem checkAndWrite_bound (c : KACommand) (t : KAThread) :
    ∀ m ∈ (checkAndWrite c t).2, m.stdOut.length ≤ 1000 ∧ m.stdErr.length ≤ 1000 := by
  simp only [checkAndWrite]
  split_ifs
  all_goals intro m hm
  all_goals
    first
      | (obtain ⟨ho, he⟩ := checkAndSend_payloads c _ m hm
         constructor
         · rcases ho with ho | ho <;> rw [ho] <;>
             simp only [List.length_take, List.length_append, List.length_nil] at * <;> omega
         · rcases he with he | he <;> rw [he] <;>
             simp only [List.length_take, List.length_append, List.length_nil] at * <;> omega)
      | simp at hm

/-- A command with one argument and one environment pair. -/
def cmdArgsEnv : KACommand :=
  { uuid := "u", taskUuid := "tk", requestSequenceNumber := 1, source := "s",
    program := "p", arguments := ["x"], environment := [("K", "V")], workingDirectory := "/w",
    runAs := "r", standardOutput := "RETURN", standardError := "RETURN",
    standardOutputPath := "", standardErrPath := "", timeout := 0 }

/-- A command returning both streams, used by the concrete scenarios. -/
def cmdRet : KACommand :=
  { uuid := "u", taskUuid := "tk", requestSequenceNumber := 1, source := "s",
    program := "p", arguments := [], environment := [], workingDirectory := "/w",
    runAs := "r", standardOutput := "RETURN", standardError := "RETURN",
    standardOutputPath := "", standardErrPath := "", timeout := 0 }

/-- A loop event where both selects time out with no data. -/
def evQuiet : LoopEvent :=
  { outSelect := 0, errSelect := 0, outData := [], errData := [], execNow := 0, heartNow := 0 }

/-- Inputs of a run that immediately reaches EOF and exits cleanly. -/
def inpQuiet : RunInputs :=
  { discoveredPid := 7, cwdOk := true, uidOk := true, startSec := 0, startHeartSec := 0,
    initOutRead := 0, initErrRead := 0, events := [evQuiet] }

/-- Inputs of a run where both pre-exec checks fail and the child is
immediately at EOF. -/
def inpBothFail : RunInputs :=
  { discoveredPid := 7, cwdOk := false, uidOk := false, startSec := 0, startHeartSec := 0,
    initOutRead := 0, initErrRead := 0, events := [evQuiet] }

/-- Inputs of a run where only the uid lookup fails. -/
def inpUidFail : RunInputs :=
  { discoveredPid := 7, cwdOk := true, uidOk := false, startSec := 0, startHeartSec := 0,
    initOutRead := 0, initErrRead := 0, events := [evQuiet] }

/-- Inputs of a run aborted by a select error on the first iteration. -/
def inpSelErr : RunInputs :=
  { discoveredPid := 7, cwdOk := true, uidOk := true, startSec := 0, startHeartSec := 0,
    initOutRead := 0, initErrRead := 0,
    events := [{ outSelect := -1, errSelect := -1, outData := [], errData := [],
                 execNow := 0, heartNow := 0 }] }

/-- Inputs where the child delivers one burst `b` in a single read and
then both pipes reach EOF. -/
def inpBurst (b : Buf) : RunInputs :=
  { discoveredPid := 7, cwdOk := true, uidOk := true, startSec := 0, startHeartSec := 0,
    initOutRead := 0, initErrRead := 0,
    events := [{ outSelect := 1, errSelect := 0, outData := b, errData := [],
                 execNow := 0, heartNow := 0 },
               { outSelect := 1, errSelect := 1, outData := [], errData := [],
                 execNow := 0, heartNow := 0 }] }

/-- A 2500-byte single-read burst yields one mid-run Progress of exactly
1000 bytes and one drain message of the remaining 1500 bytes. -/
theorem run_burst_shape (b : Buf) (hb : b.length = 2500) :
    progressOutLens (runWorker cmdRet (inpBurst b)).msgs = [1000, 1500] := by
  simp [runWorker, optionReadSend, preState, preMsgs, preIdOps, startState, cwdPhase,
    uidPhase, initThread, runLoop, loopIter, midState, readState, setSelects, heartPhase,
    readPhase, checkExecutionTimeout, checkAndWrite, checkAndSend, heartbeatSend,
    lastCheckAndSend, postLoop, createResponseMessage, createExitMessage,
    createTimeoutMessage, progressOutLens, inpBurst, cmdRet, hb]

/-- The argument string one `createExecString` call appends for a command. -/
def argStringOf (command : KACommand) : String :=
  command.arguments.foldl (fun s a => s ++ a ++ " ") ""

/-- The environment-export string one `createExecString` call appends. -/
def envStringOf (command : KACommand) : String :=
  command.environment.foldl (fun s p => s ++ " export " ++ p.1 ++ "=" ++ p.2 ++ " && ") ""

/-- The argument fold factors through its initial value. -/
theorem argFold_shift (l : List String) (init : String) :
    l.foldl (fun s a => s ++ a ++ " ") init =
      init ++ l.foldl (fun s a => s ++ a ++ " ") "" := by
  induction l generalizing init with
  | nil => simp
  | cons a l ih =>
    simp only [List.foldl_cons]
    rw [ih (init ++ a ++ " "), ih ("" ++ a ++ " ")]
    simp [String.append_assoc]

/-- The environment fold factors through its initial value. -/
theorem envFold_shift (l : List (String × String)) (init : String) :
    l.foldl (fun s p => s ++ " export " ++ p.1 ++ "=" ++ p.2 ++ " && ") init =
      init ++ l.foldl (fun s p => s ++ " export " ++ p.1 ++ "=" ++ p.2 ++ " && ") "" := by
  induction l generalizing init with
  | nil => simp
  | cons a l ih =>
    simp only [List.foldl_cons]
    rw [ih (init ++ " export " ++ a.1 ++ "=" ++ a.2 ++ " && "),
        ih ("" ++ " export " ++ a.1 ++ "=" ++ a.2 ++ " && ")]
    simp [String.append_assoc]

/-- A nonempty argument list contributes a nonempty argument string. -/
theorem argStringOf_pos (command : KACommand) (h : command.arguments ≠ []) :
    0 < (argStringOf command).length := by
  cases harg : command.arguments with
  | nil => exact absurd harg h
  | cons a l =>
    have hsp : (" " : String).length = 1 := rfl
    simp only [argStringOf, harg, List.foldl_cons]
    rw [argFold_shift]
    simp [String.length_append, hsp]

/-- A nonempty environment contributes a nonempty export string. -/
theorem envStringOf_pos (command : KACommand) (h : command.environment ≠ []) :
    0 < (envStringOf command).length := by
  cases harg : command.environment with
  | nil => exact absurd harg h
  | cons a l =>
    have hsp : (" export " : String).length = 8 := rfl
    simp only [envStringOf, harg, List.foldl_cons]
    rw [envFold_shift]
    simp [String.length_append, hsp]

/-- One `createExecString` call appends the command's argument string to
the member `argument`. -/
theorem createExecString_argument (command : KACommand) (t : KAThread) :
    (createExecString command t).2.argument = t.argument ++ argStringOf command := by
  simp only [createExecString]
  rw [argFold_shift]
  rfl

/-- One `createExecString` call appends the command's export string to
the member `environment`. -/
theorem createExecString_environment (command : KACommand) (t : KAThread) :
    (createExecString command t).2.environment = t.environment ++ envStringOf command := by
  simp only [createExecString]
  rw [envFold_shift]
  rfl

/-- The string returned by one `createExecString` call, in terms of the
appended member strings. -/
theorem createExecString_exec (command : KACommand) (t : KAThread) :
    (createExecString command t).1 =
      (if (t.environment ++ envStringOf command).isEmpty then
        command.program ++ " " ++ (t.argument ++ argStringOf command)
      else
        (t.environment ++ envStringOf command) ++ command.program ++ " " ++
          (t.argument ++ argStringOf command)) := by
  simp only [createExecString]
  rw [argFold_shift, envFold_shift]
  rfl

/-- The length of the string returned by one `createExecString` call. -/
theorem createExecString_length (command : KACommand) (t : KAThread) :
    (createExecString command t).1.length =
      (t.environment ++ envStringOf command).length + command.program.length + 1 +
        (t.argument ++ argStringOf command).length := by
  have hsp : (" " : String).length = 1 := rfl
  rw [createExecString_exec]
  split_ifs with hq
  · have hv : t.environment ++ envStringOf command = "" := (String.isEmpty_iff _).1 hq
    rw [hv]
    have hz : ("" : String).length = 0 := rfl
    simp only [String.length_append, hsp, hz]
    omega
  · simp only [String.length_append, hsp]

/-- Claim C10 (confirmed): `createExecString` is not idempotent and its
result is not a function of the command alone: the member strings
`argument` and `environment` are appended to on every call and never
cleared (only `exec` is rebuilt), so on a fresh instance a second call
for the same command duplicates every argument and every export fragment
and returns a strictly longer string. -/
theorem createExecString_not_idempotent (command : KACommand) (t0 : KAThread)
    (h1 : t0.argument = "") (h2 : t0.environment = "")
    (h3 : command.arguments ≠ [] ∨ command.environment ≠ []) :
    (createExecString command t0).2.argument = argStringOf command ∧
    (createExecString command (createExecString command t0).2).2.argument =
      argStringOf command ++ argStringOf command ∧
    (createExecString command t0).2.environment = envStringOf command ∧
    (createExecString command (createExecString command t0).2).2.environment =
      envStringOf command ++ envStringOf command ∧
    (createExecString command (createExecString command t0).2).1 =
      (if (envStringOf command ++ envStringOf command).isEmpty then
        command.program ++ " " ++ (argStringOf command ++ argStringOf command)
      else
        (envStringOf command ++ envStringOf command) ++ command.program ++ " " ++
          (argStringOf command ++ argStringOf command)) ∧
    (createExecString command t0).1.length <
      (createExecString command (createExecString command t0).2).1.length := by
  have ha1 : (createExecString command t0).2.argument = argStringOf command := by
    rw [createExecString_argument, h1]
    simp
  have he1 : (createExecString command t0).2.environment = envStringOf command := by
    rw [createExecString_environment, h2]
    simp
  have ha2 : (createExecString command (createExecString command t0).2).2.argument =
      argStringOf command ++ argStringOf command := by
    rw [createExecString_argument, ha1]
  have he2 : (createExecString command (createExecString command t0).2).2.environment =
      envStringOf command ++ envStringOf command := by
    rw [createExecString_environment, he1]
  have hx2 : (createExecString command (createExecString command t0).2).1 =
      (if (envStringOf command ++ envStringOf command).isEmpty then
        command.program ++ " " ++ (argStringOf command ++ argStringOf command)
      else
        (envStringOf command ++ envStringOf command) ++ command.program ++ " " ++
          (argStringOf command ++ argStringOf command)) := by
    rw [createExecString_exec, ha1, he1]
  have hl1 := createExecString_length command t0
  have hl2 := createExecString_length command (createExecString command t0).2
  rw [h1, h2] at hl1
  rw [ha1, he1] at hl2
  have hpos : 0 < (argStringOf command).length + (envStringOf command).length := by
    rcases h3 with h | h
    · have := argStringOf_pos command h
      omega
    · have := envStringOf_pos command h
      omega
  refine ⟨ha1, ha2, he1, he2, hx2, ?_⟩
  rw [hl1, hl2]
  have hz : ("" : String).length = 0 := rfl
  simp only [String.length_append, hz]
  omega

/-- Claim C10 witness: a concrete command with one argument and one
environment pair duplicates both on the second call. -/
theorem createExecString_witness :
    (createExecString cmdArgsEnv (initThread cmdArgsEnv 0 0)).2.argument =
      argStringOf cmdArgsEnv ∧
    (createExecString cmdArgsEnv
        (createExecString cmdArgsEnv (initThread cmdArgsEnv 0 0)).2).2.argument =
      argStringOf cmdArgsEnv ++ argStringOf cmdArgsEnv :=
  ⟨(createExecString_not_idempotent cmdArgsEnv (initThread cmdArgsEnv 0 0) rfl rfl
      (Or.inl (by decide))).1,
   (createExecString_not_idempotent cmdArgsEnv (initThread cmdArgsEnv 0 0) rfl rfl
      (Or.inl (by decide))).2.1⟩

/-- Claim C7 counterexample: at `currentsec = 59 > startsec = 58` with the
latch off, the code arms the latch, while the claim as stated requires it
to stay off whenever `currentsec > startsec` and the latch is off. -/
theorem tick_latch_counterexample :
    ¬ ((checkExecutionTimeout 59 100
        { startsec := 58, overflag := false, count := 0 }).1.overflag = false) := by
  decide

/-- Claim C7 (amended): with an active timer, when `currentsec > startsec`
and the latch is off the count advances by exactly their difference; when
additionally `currentsec` is not 59 the latch stays off and `startsec`
becomes `currentsec`; when `currentsec = 59` the latch is armed and
`startsec` is reset to 0; a single call never adds more than 59 to the
count. -/
theorem tick_delta_contract (cur start cnt tmo : Nat) (ov : Bool)
    (htmo : tmo ≠ 0) (hcur : cur ≤ 59) :
    (cur > start → ov = false →
      (checkExecutionTimeout cur tmo { startsec := start, overflag := ov, count := cnt }).1.count =
        cnt + (cur - start)) ∧
    (cur > start → ov = false → cur ≠ 59 →
      ((checkExecutionTimeout cur tmo { startsec := start, overflag := ov, count := cnt }).1.overflag = false ∧
       (checkExecutionTimeout cur tmo { startsec := start, overflag := ov, count := cnt }).1.startsec = cur)) ∧
    (cur = 59 →
      ((checkExecutionTimeout cur tmo { startsec := start, overflag := ov, count := cnt }).1.overflag = true ∧
       (checkExecutionTimeout cur tmo { startsec := start, overflag := ov, count := cnt }).1.startsec = 0)) ∧
    (checkExecutionTimeout cur tmo { startsec := start, overflag := ov, count := cnt }).1.count ≤
      cnt + 59 := by
  unfold checkExecutionTimeout
  split_ifs <;> simp_all <;> omega

/-- Claim C7 witness: a plain tick from second 3 to second 5. -/
theorem tick_delta_contract_witness :
    (checkExecutionTimeout 5 100 { startsec := 3, overflag := false, count := 0 }).1.count =
      0 + (5 - 3) :=
  (tick_delta_contract 5 3 0 100 false (by decide) (by decide)).1 (by decide) rfl

/-- Claim C1 (amended): over any complete or partial worker run, the
responseCount values are emitted in non-decreasing order, every value is
at least 1, and the first emitted response carries responseCount 1.  (The
sequence is not strictly increasing: the synthetic pre-exec error
responses carry the literal 1 without advancing the counter, and the
terminal Timeout and Exit messages reuse the current counter value.) -/
theorem responseCounts_monotone (command : KACommand) (inp : RunInputs) :
    List.Chain' (· ≤ ·) (countsOf (runWorker command inp).msgs) ∧
    (∀ x ∈ countsOf (runWorker command inp).msgs, 1 ≤ x) ∧
    (∀ x ∈ (countsOf (runWorker command inp).msgs).head?, x = 1) := by
  have h := runWorker_emits command inp
  exact ⟨h.chain, fun x hx => (h.bounds x hx).1, h.head_eq⟩

/-- Claim C1 witness: the responseCount sequence of a clean immediate-EOF
run is non-decreasing. -/
theorem responseCounts_monotone_witness :
    List.Chain' (· ≤ ·) (countsOf (runWorker cmdRet inpQuiet).msgs) :=
  (responseCounts_monotone cmdRet inpQuiet).1

/-- Claim C1 counterexample: when both pre-exec checks fail, the two
synthetic error responses and the Exit all carry responseCount 1, so the
sequence for this uuid is not strictly increasing. -/
theorem responseCounts_counterexample :
    countsOf (runWorker cmdRet inpBothFail).msgs = [1, 1, 1] ∧
    ¬ List.Chain' (· < ·) (countsOf (runWorker cmdRet inpBothFail).msgs) := by
  have hc : countsOf (runWorker cmdRet inpBothFail).msgs = [1, 1, 1] := by decide
  refine ⟨hc, ?_⟩
  rw [hc]
  intro h
  rw [List.chain'_cons] at h
  exact absurd h.1 (by decide)

/-- Claim C8 (amended): the parent-side `optionReadSend` path performs an
identity operation on every run: `doSetuid` to the resolved effective uid
when the user resolves, `undoSetuid` when it does not; the inner child
additionally applies `doSetuid` before exec exactly when both pre-exec
checks pass. -/
theorem identity_switch_sites (command : KACommand) (inp : RunInputs) (c u : Bool) :
    (runWorker command inp).idOps =
      (if inp.uidOk then [IdOp.doSetuid] else [IdOp.undoSetuid]) ∧
    (innerChild c u).2 =
      (if c then (if u then [IdOp.doSetuid] else [IdOp.undoSetuid]) else []) ∧
    ((innerChild c u).1 = ChildOutcome.execRun → (innerChild c u).2 = [IdOp.doSetuid]) := by
  refine ⟨?_, ?_, ?_⟩
  · cases hE : (runLoop command
        (preState command (initThread command inp.initOutRead inp.initErrRead) inp)
        inp.events).2.2 <;>
      simp only [runWorker, optionReadSend, hE] <;>
      exact preIdOps_eq command (initThread command inp.initOutRead inp.initErrRead) inp
  · unfold innerChild
    cases c <;> cases u <;> simp
  · unfold innerChild
    cases c <;> cases u <;> simp [ChildOutcome]

/-- Claim C8 counterexample: on a run with a resolvable user the
parent-side multiplex path performs `doSetuid`, so the parent's process
identity is changed. -/
theorem parent_setuid_counterexample :
    (runWorker cmdRet inpQuiet).idOps = [IdOp.doSetuid] ∧
    ¬ ((runWorker cmdRet inpQuiet).idOps = []) := by
  decide

/-- Claim C9 (amended): a pipe-open failure in the worker branch of
`threadFunction` is only logged: the inner fork still happens and the run
proceeds through the multiplex loop exactly as when the pipes opened,
with no early Exit. -/
theorem pipe_failure_only_logged (command : KACommand) (p : Bool) (inp : RunInputs) :
    (threadFunctionWorker command p inp).innerForked = true ∧
    (threadFunctionWorker command p inp).loggedPipeError = !p ∧
    (threadFunctionWorker command p inp).run = runWorker command inp :=
  ⟨rfl, rfl, rfl⟩

/-- Claim C9 counterexample: with failed pipes the worker still forks the
inner child, and a clean run then ends in a normal Exit with exit code 0
rather than skipping to an Exit with exit code 1. -/
theorem pipe_failure_counterexample :
    (threadFunctionWorker cmdRet false inpQuiet).innerForked = true ∧
    ((threadFunctionWorker cmdRet false inpQuiet).run.msgs.getLast?).map
      (fun m => (m.rtype, m.exitCode)) = some (RespType.exitMsg, 0) ∧
    exitCount (threadFunctionWorker cmdRet false inpQuiet).run.msgs = 1 := by
  decide

/-- Claim C2 (amended): a run whose multiplex loop ends at EOF emits
exactly one Exit and no Timeout; a run whose loop ends by execution
timeout emits exactly one Timeout, plus one Exit exactly when both stored
read results are zero; a run aborted by a select error, or whose event
list ran out, emits neither terminal message. -/
theorem terminal_message_discipline (command : KACommand) (inp : RunInputs) :
    ((runWorker command inp).status = RunStatus.eofExit →
      exitCount (runWorker command inp).msgs = 1 ∧
      timeoutCount (runWorker command inp).msgs = 0) ∧
    ((runWorker command inp).status = RunStatus.timeoutExit →
      timeoutCount (runWorker command inp).msgs = 1 ∧
      exitCount (runWorker command inp).msgs =
        (if (runWorker command inp).t.errorStream.readResult = 0 ∧
            (runWorker command inp).t.outputStream.readResult = 0 then 1 else 0)) ∧
    (((runWorker command inp).status = RunStatus.selectFail ∨
      (runWorker command inp).status = RunStatus.outOfEvents) →
      exitCount (runWorker command inp).msgs = 0 ∧
      timeoutCount (runWorker command inp).msgs = 0) := by
  have hpre := preMsgs_facts command (initThread command inp.initOutRead inp.initErrRead) inp
  have hpreE : exitCount (preMsgs command (initThread command inp.initOutRead inp.initErrRead) inp) = 0 :=
    exitCount_progress_zero _ (fun m hm => (hpre m hm).1)
  have hpreT : timeoutCount (preMsgs command (initThread command inp.initOutRead inp.initErrRead) inp) = 0 :=
    timeoutCount_progress_zero _ (fun m hm => (hpre m hm).1)
  have hloopE : exitCount (runLoop command
      (preState command (initThread command inp.initOutRead inp.initErrRead) inp) inp.events).2.1 = 0 :=
    exitCount_progress_zero _ (runLoop_progress command inp.events _)
  have hloopT : timeoutCount (runLoop command
      (preState command (initThread command inp.initOutRead inp.initErrRead) inp) inp.events).2.1 = 0 :=
    timeoutCount_progress_zero _ (runLoop_progress command inp.events _)
  have hpc := postLoop_counts command (runLoop command
      (preState command (initThread command inp.initOutRead inp.initErrRead) inp) inp.events).1
  have hpf := postLoop_frame command (runLoop command
      (preState command (initThread command inp.initOutRead inp.initErrRead) inp) inp.events).1
  have hexecpre : (preState command (initThread command inp.initOutRead inp.initErrRead) inp).EXECTIMEOUT = false :=
    (preState_facts command _ inp rfl rfl).2.2.2.2.2.2.2.2.1
  cases hE : (runLoop command
      (preState command (initThread command inp.initOutRead inp.initErrRead) inp) inp.events).2.2 with
  | eofEnd =>
    obtain ⟨hT, hro, hre⟩ := runLoop_eofEnd command inp.events _ hE
    simp only [runWorker, optionReadSend, hE]
    refine ⟨fun _ => ⟨?_, ?_⟩, fun hcontra => absurd hcontra (by simp), fun hcontra => ?_⟩
    · rw [exitCount_append, exitCount_append, hpreE, hloopE, hpc.2, if_pos ⟨hre, hro⟩]
    · rw [timeoutCount_append, timeoutCount_append, hpreT, hloopT, hpc.1, hT, hexecpre]
      simp
    · rcases hcontra with hcontra | hcontra <;> exact absurd hcontra (by simp)
  | timeoutEnd =>
    have hT := runLoop_timeoutEnd command inp.events _ hE
    simp only [runWorker, optionReadSend, hE]
    refine ⟨fun hcontra => absurd hcontra (by simp), fun _ => ⟨?_, ?_⟩, fun hcontra => ?_⟩
    · rw [timeoutCount_append, timeoutCount_append, hpreT, hloopT, hpc.1, hT]
      simp
    · rw [exitCount_append, exitCount_append, hpreE, hloopE, hpc.2,
        hpf.1, hpf.2.1]
      simp
    · rcases hcontra with hcontra | hcontra <;> exact absurd hcontra (by simp)
  | selErrEnd =>
    simp only [runWorker, optionReadSend, hE]
    refine ⟨fun hcontra => absurd hcontra (by simp),
      fun hcontra => absurd hcontra (by simp), fun _ => ⟨?_, ?_⟩⟩
    · rw [exitCount_append, hpreE, hloopE]
    · rw [timeoutCount_append, hpreT, hloopT]
  | exhausted =>
    simp only [runWorker, optionReadSend, hE]
    refine ⟨fun hcontra => absurd hcontra (by simp),
      fun hcontra => absurd hcontra (by simp), fun _ => ⟨?_, ?_⟩⟩
    · rw [exitCount_append, hpreE, hloopE]
    · rw [timeoutCount_append, hpreT, hloopT]

/-- Claim C2 witness: the immediate-EOF run emits exactly one Exit and no
Timeout. -/
theorem terminal_message_discipline_witness :
    exitCount (runWorker cmdRet inpQuiet).msgs = 1 ∧
    timeoutCount (runWorker cmdRet inpQuiet).msgs = 0 :=
  (terminal_message_discipline cmdRet inpQuiet).1 (by decide)

/-- Claim C2 counterexample: a run aborted by a select error on the first
iteration ends without any terminal message: neither an Exit nor a
Timeout is handed to the queue. -/
theorem terminal_message_counterexample :
    (runWorker cmdRet inpSelErr).status = RunStatus.selectFail ∧
    exitCount (runWorker cmdRet inpSelErr).msgs = 0 ∧
    timeoutCount (runWorker cmdRet inpSelErr).msgs = 0 := by
  decide

/-- Claim C3 (confirmed): every Exit message of a run carries exit code 0
exactly when no stderr byte was ever read (hence none was ever appended to
the error buffer), the working-directory check succeeded, and the runAs
user resolved; otherwise it carries exit code 1. -/
theorem exit_code_iff (command : KACommand) (inp : RunInputs) :
    ∀ m ∈ (runWorker command inp).msgs, m.rtype = RespType.exitMsg →
      ((m.exitCode = 0 ↔
        ((runWorker command inp).errSeen = [] ∧ inp.cwdOk = true ∧ inp.uidOk = true)) ∧
       (m.exitCode = 0 ∨ m.exitCode = 1)) := by
  have hpre := preMsgs_facts command (initThread command inp.initOutRead inp.initErrRead) inp
  have hloopP := runLoop_progress command inp.events
    (preState command (initThread command inp.initOutRead inp.initErrRead) inp)
  have hpf := preState_facts command (initThread command inp.initOutRead inp.initErrRead) inp rfl rfl
  have hflags := runLoop_flags command inp.events
    (preState command (initThread command inp.initOutRead inp.initErrRead) inp)
  have hcinv := runLoop_cinv command inp.events
    (preState command (initThread command inp.initOutRead inp.initErrRead) inp)
    (cinv_preState command inp)
  have hpx := postLoop_exitCode command (runLoop command
      (preState command (initThread command inp.initOutRead inp.initErrRead) inp) inp.events).1
  have hcw : (runLoop command
      (preState command (initThread command inp.initOutRead inp.initErrRead) inp)
      inp.events).1.t.CWDERR = !inp.cwdOk := hflags.1.trans hpf.1
  have hui : (runLoop command
      (preState command (initThread command inp.initOutRead inp.initErrRead) inp)
      inp.events).1.t.UIDERR = !inp.uidOk := hflags.2.1.trans hpf.2.1
  obtain ⟨hi0, hi1⟩ := hcinv
  cases hE : (runLoop command
      (preState command (initThread command inp.initOutRead inp.initErrRead) inp) inp.events).2.2 with
  | eofEnd =>
    simp only [runWorker, optionReadSend, hE]
    intro m hm hx
    rcases List.mem_append.1 hm with hm | hm
    · rcases List.mem_append.1 hm with hm | hm
      · exact absurd ((hpre m hm).1) (by rw [hx]; simp)
      · exact absurd (hloopP m hm) (by rw [hx]; simp)
    · have hcode := hpx m hm hx
      rw [hcw, hui] at hcode
      constructor
      · rw [hcode]
        constructor
        · intro h0
          split_ifs at h0 with hcond
          all_goals first
            | exact absurd h0 Nat.one_ne_zero
            | (push_neg at hcond
               refine ⟨?_, ?_, ?_⟩
               · by_contra hne
                 have h1x := hi1 hne
                 omega
               · cases hcw2 : inp.cwdOk
                 · exact absurd (by rw [hcw2]; rfl) hcond.2.1
                 · rfl
               · cases hcw2 : inp.uidOk
                 · exact absurd (by rw [hcw2]; rfl) hcond.2.2
                 · rfl)
        · intro hcl
          have hx0 : (runLoop command
              (preState command (initThread command inp.initOutRead inp.initErrRead) inp)
              inp.events).1.t.EXITSTATUS = 0 := by
            by_cases hseen : (runLoop command
                (preState command (initThread command inp.initOutRead inp.initErrRead) inp)
                inp.events).1.errSeen = []
            · exact (hi0 hseen).2.2
            · exact absurd hcl.1 hseen
          rw [if_neg]
          push_neg
          exact ⟨by simpa using hx0, by rw [hcl.2.1]; simp, by rw [hcl.2.2]; simp⟩
      · rw [hcode]
        split_ifs <;> simp
  | timeoutEnd =>
    simp only [runWorker, optionReadSend, hE]
    intro m hm hx
    rcases List.mem_append.1 hm with hm | hm
    · rcases List.mem_append.1 hm with hm | hm
      · exact absurd ((hpre m hm).1) (by rw [hx]; simp)
      · exact absurd (hloopP m hm) (by rw [hx]; simp)
    · have hcode := hpx m hm hx
      rw [hcw, hui] at hcode
      constructor
      · rw [hcode]
        constructor
        · intro h0
          split_ifs at h0 with hcond
          all_goals first
            | exact absurd h0 Nat.one_ne_zero
            | (push_neg at hcond
               refine ⟨?_, ?_, ?_⟩
               · by_contra hne
                 have h1x := hi1 hne
                 omega
               · cases hcw2 : inp.cwdOk
                 · exact absurd (by rw [hcw2]; rfl) hcond.2.1
                 · rfl
               · cases hcw2 : inp.uidOk
                 · exact absurd (by rw [hcw2]; rfl) hcond.2.2
                 · rfl)
        · intro hcl
          have hx0 : (runLoop command
              (preState command (initThread command inp.initOutRead inp.initErrRead) inp)
              inp.events).1.t.EXITSTATUS = 0 := by
            by_cases hseen : (runLoop command
                (preState command (initThread command inp.initOutRead inp.initErrRead) inp)
                inp.events).1.errSeen = []
            · exact (hi0 hseen).2.2
            · exact absurd hcl.1 hseen
          rw [if_neg]
          push_neg
          exact ⟨by simpa using hx0, by rw [hcl.2.1]; simp, by rw [hcl.2.2]; simp⟩
      · rw [hcode]
        split_ifs <;> simp
  | selErrEnd =>
    simp only [runWorker, optionReadSend, hE]
    intro m hm hx
    rcases List.mem_append.1 hm with hm | hm
    · exact absurd ((hpre m hm).1) (by rw [hx]; simp)
    · exact absurd (hloopP m hm) (by rw [hx]; simp)
  | exhausted =>
    simp only [runWorker, optionReadSend, hE]
    intro m hm hx
    rcases List.mem_append.1 hm with hm | hm
    · exact absurd ((hpre m hm).1) (by rw [hx]; simp)
    · exact absurd (hloopP m hm) (by rw [hx]; simp)

/-- A command capturing neither stream. -/
def cmdNO : KACommand := { cmdRet with standardOutput := "NO", standardError := "NO" }

/-- A command capturing stdout and returning stderr. -/
def cmdCapRet : KACommand := { cmdRet with standardOutput := "CAPTURE" }

/-- A thread state for `cmdCapRet` holding data in both buffers. -/
def tCapRet : KAThread :=
  { (initThread cmdCapRet 0 0) with outBuff := ['x'], errBuff := ['y'] }

/-- Inputs of a run whose only activity is a heartbeat firing at 30
seconds of silence. -/
def inpHeart : RunInputs :=
  { discoveredPid := 7, cwdOk := true, uidOk := true, startSec := 0, startHeartSec := 0,
    initOutRead := 1, initErrRead := 1,
    events := [{ outSelect := 0, errSelect := 0, outData := [], errData := [],
                 execNow := 0, heartNow := 30 }] }

/-- A thread state holding exactly 1000 buffered stdout bytes. -/
def tBurst : KAThread := { (initThread cmdRet 0 0) with outBuff := List.replicate 1000 'a' }

/-- The packet `checkAndWrite` emits for `tBurst`. -/
def msgBurst : Response :=
  createResponseMessage "u" 0 1 1 [] (List.replicate 1000 'a') "s" "tk"

/-- Claim C4 (amended): every mid-run packet emitted by `checkAndWrite`
carries at most 1000 bytes in each payload field; but `checkAndWrite`
splits off at most one packet per call, so a 2500-byte single-read burst
yields one mid-run Progress of exactly 1000 bytes followed by one drain
message of the remaining 1500 bytes (not two 1000-byte packets and a
drain of at most 500). -/
theorem packet_fragmentation (command : KACommand) (t : KAThread) :
    (∀ m ∈ (checkAndWrite command t).2,
      m.stdOut.length ≤ 1000 ∧ m.stdErr.length ≤ 1000) ∧
    progressOutLens (runWorker cmdRet (inpBurst (List.replicate 2500 'a'))).msgs =
      [1000, 1500] :=
  ⟨checkAndWrite_bound command t, run_burst_shape _ (by rw [List.length_replicate])⟩

/-- Claim C4 witness: the packet for a 1000-byte buffer meets the bound. -/
theorem packet_fragmentation_witness :
    msgBurst.stdOut.length ≤ 1000 ∧ msgBurst.stdErr.length ≤ 1000 :=
  (packet_fragmentation cmdRet tBurst).1 msgBurst (by
    simp only [checkAndWrite, checkAndSend, tBurst, initThread, cmdRet, msgBurst,
      List.append_nil, List.length_replicate]
    norm_num [List.take_replicate])

/-- Claim C4 counterexample: the 2500-byte burst produces payload sizes
1000 then 1500, so there is no second 1000-byte Progress and the drain
exceeds both 500 and 1000 bytes. -/
theorem packet_fragmentation_counterexample :
    progressOutLens (runWorker cmdRet (inpBurst (List.replicate 2500 'a'))).msgs =
      [1000, 1500] ∧
    ¬ (1500 ≤ 500) ∧ ¬ (1500 ≤ 1000) :=
  ⟨run_burst_shape _ (by rw [List.length_replicate]), by decide, by decide⟩

/-- With a non-returning stdout mode, no message of `checkAndSend`
carries stdout payload. -/
theorem checkAndSend_redact_out (c : KACommand) (t : KAThread)
    (hmode : t.outputStream.mode = c.standardOutput)
    (hout : c.standardOutput = "CAPTURE" ∨ c.standardOutput = "NO") :
    ∀ m ∈ (checkAndSend c t).2, m.stdOut = [] := by
  rcases hout with h | h <;>
    (rw [h] at hmode
     simp only [checkAndSend, hmode, h]
     split_ifs <;> intro m hm <;> simp_all [createResponseMessage])

/-- With a non-returning stderr mode, no message of `checkAndSend`
carries stderr payload. -/
theorem checkAndSend_redact_err (c : KACommand) (t : KAThread)
    (herr : c.standardError = "CAPTURE" ∨ c.standardError = "NO") :
    ∀ m ∈ (checkAndSend c t).2, m.stdErr = [] := by
  rcases herr with h | h <;>
    (simp only [checkAndSend, h]
     split_ifs <;> intro m hm <;> simp_all [createResponseMessage])

/-- With a non-returning stdout mode, no message of `lastCheckAndSend`
carries stdout payload. -/
theorem lastCheckAndSend_redact_out (c : KACommand) (t : KAThread)
    (hout : c.standardOutput = "CAPTURE" ∨ c.standardOutput = "NO") :
    ∀ m ∈ (lastCheckAndSend c t).2, m.stdOut = [] := by
  rcases hout with h | h <;>
    (simp only [lastCheckAndSend, h]
     split_ifs <;> intro m hm <;> simp_all [createResponseMessage])

/-- With a non-returning stderr mode, no message of `lastCheckAndSend`
carries stderr payload. -/
theorem lastCheckAndSend_redact_err (c : KACommand) (t : KAThread)
    (herr : c.standardError = "CAPTURE" ∨ c.standardError = "NO") :
    ∀ m ∈ (lastCheckAndSend c t).2, m.stdErr = [] := by
  rcases herr with h | h <;>
    (simp only [lastCheckAndSend, h]
     split_ifs <;> intro m hm <;> simp_all [createResponseMessage])

/-- With a non-returning stdout mode, no message of the heartbeat block
carries stdout payload. -/
theorem heartbeatSend_redact_out (c : KACommand) (t : KAThread)
    (hout : c.standardOutput = "CAPTURE" ∨ c.standardOutput = "NO") :
    ∀ m ∈ (heartbeatSend c t).2, m.stdOut = [] := by
  rcases hout with h | h <;>
    (simp only [heartbeatSend, h]
     split_ifs <;> intro m hm <;> simp_all [createResponseMessage])

/-- With a non-returning stderr mode, no message of the heartbeat block
carries stderr payload. -/
theorem heartbeatSend_redact_err (c : KACommand) (t : KAThread)
    (herr : c.standardError = "CAPTURE" ∨ c.standardError = "NO") :
    ∀ m ∈ (heartbeatSend c t).2, m.stdErr = [] := by
  rcases herr with h | h <;>
    (simp only [heartbeatSend, h]
     split_ifs <;> intro m hm <;> simp_all [createResponseMessage])

/-- With both modes non-returning, `checkAndSend` and `lastCheckAndSend`
emit nothing. -/
theorem noemit_both_nonreturning (c : KACommand) (t : KAThread)
    (hmode : t.outputStream.mode = c.standardOutput)
    (hout : c.standardOutput = "CAPTURE" ∨ c.standardOutput = "NO")
    (herr : c.standardError = "CAPTURE" ∨ c.standardError = "NO") :
    (checkAndSend c t).2 = [] ∧ (lastCheckAndSend c t).2 = [] := by
  constructor
  · rcases hout with h | h <;> rcases herr with h2 | h2 <;>
      (rw [h] at hmode
       simp only [checkAndSend, hmode, h, h2]
       split_ifs <;> simp_all)
  · rcases hout with h | h <;> rcases herr with h2 | h2 <;>
      (simp only [lastCheckAndSend, h, h2]
       split_ifs <;> simp_all)

/-- Claim C5 (amended): in every message emitted by `checkAndSend`, by
`lastCheckAndSend`, or by the heartbeat block, the payload field of a
stream whose configured mode is CAPTURE or NO is empty, and
`checkAndSend` and `lastCheckAndSend` emit nothing at all when both
modes are non-returning.  (The heartbeat block still emits an
empty-payload message even when both modes are non-returning.) -/
theorem redaction_policy (command : KACommand) (t : KAThread)
    (hmode : t.outputStream.mode = command.standardOutput) :
    (∀ m ∈ (checkAndSend command t).2,
      ((command.standardOutput = "CAPTURE" ∨ command.standardOutput = "NO") → m.stdOut = []) ∧
      ((command.standardError = "CAPTURE" ∨ command.standardError = "NO") → m.stdErr = [])) ∧
    (∀ m ∈ (lastCheckAndSend command t).2,
      ((command.standardOutput = "CAPTURE" ∨ command.standardOutput = "NO") → m.stdOut = []) ∧
      ((command.standardError = "CAPTURE" ∨ command.standardError = "NO") → m.stdErr = [])) ∧
    (∀ m ∈ (heartbeatSend command t).2,
      ((command.standardOutput = "CAPTURE" ∨ command.standardOutput = "NO") → m.stdOut = []) ∧
      ((command.standardError = "CAPTURE" ∨ command.standardError = "NO") → m.stdErr = [])) ∧
    ((command.standardOutput = "CAPTURE" ∨ command.standardOutput = "NO") →
     (command.standardError = "CAPTURE" ∨ command.standardError = "NO") →
     (checkAndSend command t).2 = [] ∧ (lastCheckAndSend command t).2 = []) := by
  refine ⟨?_, ?_, ?_, ?_⟩
  · intro m hm
    exact ⟨fun hout => checkAndSend_redact_out command t hmode hout m hm,
           fun herr => checkAndSend_redact_err command t herr m hm⟩
  · intro m hm
    exact ⟨fun hout => lastCheckAndSend_redact_out command t hout m hm,
           fun herr => lastCheckAndSend_redact_err command t herr m hm⟩
  · intro m hm
    exact ⟨fun hout => heartbeatSend_redact_out command t hout m hm,
           fun herr => heartbeatSend_redact_err command t herr m hm⟩
  · intro hout herr
    exact noemit_both_nonreturning command t hmode hout herr

/-- Claim C5 witness: with stdout mode CAPTURE and stderr mode RETURN,
the packet sent by `checkAndSend` has an empty stdout payload. -/
theorem redaction_policy_witness :
    (createResponseMessage "u" 0 1 1 (['y']) [] "s" "tk").stdOut = [] :=
  ((redaction_policy cmdCapRet tCapRet rfl).1
    (createResponseMessage "u" 0 1 1 (['y']) [] "s" "tk") (by decide)).1 (Or.inl rfl)

/-- Claim C5 counterexample: with both stream modes NO, a heartbeat still
emits a Progress-shaped message, while the claim states that no Progress
is emitted at all when both modes are in CAPTURE or NO. -/
theorem redaction_counterexample :
    cmdNO.standardOutput = "NO" ∧ cmdNO.standardError = "NO" ∧
    (runWorker cmdNO inpHeart).msgs.countP (fun m => m.rtype == RespType.progress) = 1 := by
  decide

/-- Claim C6 (amended): when the runAs user does not resolve (and the
working directory exists), the first emitted response is the synthetic
Progress whose stderr payload field carries the literal string and whose
stdout payload is empty (the literal is passed in the argument position
every other call site uses for the stderr fragment); and if the run ends
at EOF, the last message is an Exit carrying exit code 1. -/
theorem missing_user_response (command : KACommand) (inp : RunInputs)
    (hu : inp.uidOk = false) (hc : inp.cwdOk = true) :
    (runWorker command inp).msgs.head? =
      some (createResponseMessage command.uuid inp.discoveredPid
        command.requestSequenceNumber 1 ("User Does Not Exist on System".data) []
        command.source command.taskUuid) ∧
    ((runWorker command inp).status = RunStatus.eofExit →
      ∃ m, (runWorker command inp).msgs.getLast? = some m ∧
        m.rtype = RespType.exitMsg ∧ m.exitCode = 1) := by
  have hpm : preMsgs command (initThread command inp.initOutRead inp.initErrRead) inp =
      [createResponseMessage command.uuid inp.discoveredPid
        command.requestSequenceNumber 1 ("User Does Not Exist on System".data) []
        command.source command.taskUuid] := by
    simp [preMsgs, cwdPhase, uidPhase, hc, hu, initThread]
  have hflags := runLoop_flags command inp.events
    (preState command (initThread command inp.initOutRead inp.initErrRead) inp)
  have hpf := preState_facts command (initThread command inp.initOutRead inp.initErrRead) inp rfl rfl
  have hui : (runLoop command
      (preState command (initThread command inp.initOutRead inp.initErrRead) inp)
      inp.events).1.t.UIDERR = true := by
    rw [hflags.2.1, hpf.2.1, hu]
    rfl
  cases hE : (runLoop command
      (preState command (initThread command inp.initOutRead inp.initErrRead) inp) inp.events).2.2 with
  | eofEnd =>
    obtain ⟨hT, hro, hre⟩ := runLoop_eofEnd command inp.events _ hE
    obtain ⟨m, hgl, hmt, hmc, hne⟩ := postLoop_last command (runLoop command
        (preState command (initThread command inp.initOutRead inp.initErrRead) inp)
        inp.events).1 ⟨hre, hro⟩
    constructor
    · simp only [runWorker, optionReadSend, hE, hpm]
      simp
    · intro _
      refine ⟨m, ?_, hmt, ?_⟩
      · simp only [runWorker, optionReadSend, hE]
        rw [List.getLast?_append_of_ne_nil _ hne]
        exact hgl
      · rw [hmc, if_pos]
        right
        right
        exact hui
  | timeoutEnd =>
    constructor
    · simp only [runWorker, optionReadSend, hE, hpm]
      simp
    · intro hcontra
      simp [runWorker, optionReadSend, hE] at hcontra
  | selErrEnd =>
    constructor
    · simp only [runWorker, optionReadSend, hE, hpm]
      simp
    · intro hcontra
      simp [runWorker, optionReadSend, hE] at hcontra
  | exhausted =>
    constructor
    · simp only [runWorker, optionReadSend, hE, hpm]
      simp
    · intro hcontra
      simp [runWorker, optionReadSend, hE] at hcontra

/-- Claim C6 witness: the concrete missing-user run starts with the
synthetic response and ends with an Exit of code 1. -/
theorem missing_user_response_witness :
    (runWorker cmdRet inpUidFail).msgs.head? =
      some (createResponseMessage cmdRet.uuid inpUidFail.discoveredPid
        cmdRet.requestSequenceNumber 1 ("User Does Not Exist on System".data) []
        cmdRet.source cmdRet.taskUuid) ∧
    (∃ m, (runWorker cmdRet inpUidFail).msgs.getLast? = some m ∧
      m.rtype = RespType.exitMsg ∧ m.exitCode = 1) :=
  ⟨(missing_user_response cmdRet inpUidFail rfl rfl).1,
   (missing_user_response cmdRet inpUidFail rfl rfl).2 (by decide)⟩

/-- Claim C6 counterexample: in the synthetic missing-user response the
stdout payload is empty and the literal sits in the stderr payload, while
the claim says the stdout payload carries the literal. -/
theorem missing_user_counterexample :
    ((runWorker cmdRet inpUidFail).msgs.head?).map (fun m => m.stdOut) = some [] ∧
    ((runWorker cmdRet inpUidFail).msgs.head?).map (fun m => m.stdErr) =
      some ("User Does Not Exist on System".data) ∧
    "User Does Not Exist on System".data ≠ [] := by
  decide

/-- Claim C3 witness message: the Exit of the clean immediate-EOF run. -/
def msgCleanExit : Response := createExitMessage "u" 7 1 1 "s" "tk" 0

/-- Claim C3 witness: the clean run's Exit message carries exit code 0,
obtained from the characterization. -/
theorem exit_code_iff_witness : msgCleanExit.exitCode = 0 :=
  ((exit_code_iff cmdRet inpQuiet msgCleanExit (by decide) (by decide)).1).mpr (by decide)

end KA
